import Mathlib

/-!
# Verification of django-tortoise-objects model mirroring

Shallow embedding, in Lean 4, of the core of the `django_tortoise` package:

* `introspection.py`  — the `FieldInfo` / `ModelInfo` intermediate representation;
* `fields.py`         — the live field-conversion registry (`FIELD_MAP`,
  `convert_field`, `_common_kwargs`, relation builders, `ON_DELETE_MAP`);
* `code_generator.py` — the parallel source-text renderer (`SOURCE_FIELD_MAP`,
  `render_field_source`, `_common_kwargs_source`, `render_model_source`);
* `generator.py`      — `generate_tortoise_model_full` and `_build_meta_class`;
* `apps.py`           — the Pass-2 loop of `DjangoTortoiseConfig.ready`;
* `conf.py`           — `should_include` with `fnmatch`-style glob patterns;
* `initialization.py` — the lazy init gate (`init` / `ensure_initialized`),
  modelled sequentially with the global flag made an explicit argument.

Python dictionaries are modelled as association lists with insert-or-replace
semantics (`dictInsert`), Python sets as insertion-ordered lists without
duplicates (`setInsert`), Python truthiness of strings/lists as emptiness
tests, and Python runtime values that can appear as a field default as the
inductive type `Val`.  Warnings emitted through `logger.warning` are made
explicit: functions that log return the list of warning strings alongside
their result, and the generation pipeline projects the result component.
-/

namespace DjangoTortoise

/-- A Python runtime value as it can occur in `FieldInfo.default` and in the
keyword-argument dictionaries built by `fields._common_kwargs` and
`code_generator._common_kwargs_source`.  The constructors are disjoint
classes that the renderer's `isinstance`/membership chain distinguishes:

* `none`, `bool`, `int`, `float`, `str` — the `_SIMPLE_LITERAL_TYPES`
  (a float is carried by its `repr` string; no arithmetic is done on it);
* `enumMember` — an `enum.Enum` member (`isinstance(default, enum.Enum)`);
* `safeCallable` — one of `_SAFE_CALLABLES` (`dict`, `list`, `set`,
  `frozenset`, `tuple`), emitted by `__name__`;
* `qualifiedCallable` — one of `_QUALIFIED_CALLABLES` (`uuid.uuid4`),
  carried as (module, qualified path);
* `otherCallable` — any other callable (carried by its `repr`);
* `obj` — any other non-callable object (carried by its `repr`). -/
inductive Val where
  | none
  | bool (b : Bool)
  | int (n : Int)
  | float (r : String)
  | str (s : String)
  | enumMember (enumName memberName : String)
  | safeCallable (name : String)
  | qualifiedCallable (module path : String)
  | otherCallable (r : String)
  | obj (r : String)
deriving DecidableEq, Repr

/-- The base class of a Python `Enum` that backs a field's choices:
`issubclass(enum_type, int)`, `issubclass(enum_type, str)`, or neither. -/
inductive EnumBase where
  | intBase
  | strBase
  | otherBase
deriving DecidableEq, Repr

/-- An `enum_type` entry of a `FieldInfo`: the enumeration class name
(`enum_type.__name__`) and its primitive base. -/
structure EnumType where
  name : String
  base : EnumBase
deriving DecidableEq, Repr

/-- `introspection.FieldInfo`.  Django model classes are identified by an
opaque key (`Nat`); the `django_field` back-reference (an opaque runtime
object never consumed by the generators) is omitted. -/
structure FieldInfo where
  name : String
  internal_type : String
  column : String
  primary_key : Bool
  null : Bool
  unique : Bool
  has_default : Bool
  default : Val
  max_length : Option Nat
  max_digits : Option Nat
  decimal_places : Option Nat
  db_index : Bool
  choices : Option (List (Val × String))
  enum_type : Option EnumType
  is_relation : Bool
  related_model : Option Nat
  related_model_label : Option String
  on_delete : Option String
  related_name : Option String
  is_self_referential : Bool
  many_to_many : Bool
  through_model : Option Nat
  through_db_table : Option String
  is_auto_field : Bool
deriving DecidableEq, Repr

/-- `introspection.ModelInfo`.  `key` is the identity of `model_class`,
`class_name` its `__name__`, `module` its `__module__`. -/
structure ModelInfo where
  key : Nat
  class_name : String
  module : String
  app_label : String
  model_name : String
  db_table : String
  fields : List FieldInfo
  unique_together : List (List String)
  is_abstract : Bool
  is_proxy : Bool
  is_managed : Bool
  pk_name : String
deriving DecidableEq, Repr

/-- Python dict assignment `d[k] = v`: replace in place when the key exists,
append otherwise (dict keys keep first-insertion order). -/
def dictInsert {α : Type} : List (String × α) → String → α → List (String × α)
  | [], k, v => [(k, v)]
  | (k', v') :: rest, k, v =>
    if k' = k then (k, v) :: rest else (k', v') :: dictInsert rest k v

/-- The keys of a dict, in insertion order. -/
def dictKeys {α : Type} (d : List (String × α)) : List String :=
  d.map Prod.fst

/-- Python `set.add`: no-op when the element is present, append otherwise. -/
def setInsert (l : List String) (x : String) : List String :=
  if x ∈ l then l else l ++ [x]

/-- Python `x or d` for `x : int | None` (`None` and `0` are falsy). -/
def pyOrNat (x : Option Nat) (d : Nat) : Nat :=
  match x with
  | Option.none => d
  | some n => if n = 0 then d else n

/-- Python single-quoted `repr` of a simple string (no escaping fidelity is
needed: the repository only renders identifier-like strings). -/
def pyQuote (s : String) : String :=
  "'" ++ s ++ "'"

/-- `repr` of a Python value, as the text renderer relies on it for the
branches that emit a faithful source representation. -/
def pyRepr : Val → String
  | Val.none => "None"
  | Val.bool b => if b then "True" else "False"
  | Val.int n => toString n
  | Val.float r => r
  | Val.str s => pyQuote s
  | Val.enumMember e m => "<" ++ e ++ "." ++ m ++ ">"
  | Val.safeCallable n => "<class " ++ pyQuote n ++ ">"
  | Val.qualifiedCallable _ p => "<function " ++ p ++ ">"
  | Val.otherCallable r => r
  | Val.obj r => r

/-- `fields._common_kwargs`: the common keyword arguments passed to a live
Tortoise field constructor.  `unique` and `db_index` are intentionally not
mapped (see the docstring in `fields.py`); when `has_default` is true the
default is always set, even when it is `None`. -/
def common_kwargs (fi : FieldInfo) : List (String × Val) :=
  (if fi.null then [("null", Val.bool true)] else [])
  ++ (if fi.primary_key then [("primary_key", Val.bool true)] else [])
  ++ (if fi.column ≠ "" ∧ fi.column ≠ fi.name then
        [("source_field", Val.str fi.column)] else [])
  ++ (if fi.has_default then [("default", fi.default)] else [])

/-- The source string `_common_kwargs_source` emits for a default value:
enum members before simple literals (an `IntegerChoices` member is also an
`int`), then the safe and qualified callables by name, then the
`None`-placeholder-plus-TODO-sentinel branch for any other callable, and
`repr` for everything else. -/
def default_kwargs_source : Val → List (String × String)
  | Val.enumMember e m => [("default", e ++ "." ++ m)]
  | Val.none => [("default", pyRepr Val.none)]
  | Val.bool b => [("default", pyRepr (Val.bool b))]
  | Val.int n => [("default", pyRepr (Val.int n))]
  | Val.float r => [("default", pyRepr (Val.float r))]
  | Val.str s => [("default", pyRepr (Val.str s))]
  | Val.safeCallable n => [("default", n)]
  | Val.qualifiedCallable _ path => [("default", path)]
  | Val.otherCallable _ => [("default", "None"), ("# TODO", "")]
  | Val.obj r => [("default", r)]

/-- `code_generator._common_kwargs_source`: the common keyword arguments as
`name = source_repr` pairs.  Unlike the live `_common_kwargs` it also emits
`unique=True` and `db_index=True`. -/
def common_kwargs_source (fi : FieldInfo) : List (String × String) :=
  (if fi.null then [("null", "True")] else [])
  ++ (if fi.unique then [("unique", "True")] else [])
  ++ (if fi.db_index then [("db_index", "True")] else [])
  ++ (if fi.primary_key then [("primary_key", "True")] else [])
  ++ (if fi.column ≠ "" ∧ fi.column ≠ fi.name then
        [("source_field", pyQuote fi.column)] else [])
  ++ (if fi.has_default then default_kwargs_source fi.default else [])

/-- The renderer's own faithful source encoding of a default value: the
value each non-placeholder branch of `_common_kwargs_source` emits.  Used to
state when the text renderer's explicit default is equal to (represents) the
source default. -/
def default_source_repr : Val → String
  | Val.enumMember e m => e ++ "." ++ m
  | Val.safeCallable n => n
  | Val.qualifiedCallable _ path => path
  | v => pyRepr v

/-- Whether a default takes `_common_kwargs_source`'s unserializable-callable
branch (the `None` placeholder with a `# TODO` sentinel). -/
def is_todo_default : Val → Bool
  | Val.otherCallable _ => true
  | _ => false

/-! ## Live field conversion (`fields.py`) -/

/-- A constructed Tortoise field instance:

* `data kind enum_name kwargs` — a non-relational field; `kind` is the
  Tortoise field class name, `enum_name` the positional enumeration class of
  an `IntEnumField`/`CharEnumField`;
* `fk` / `o2o` / `m2m` — the relational fields, with their positional target
  reference and the explicit `related_name` (a string or `False`) and
  `on_delete` (the Tortoise `OnDelete` member name) arguments. -/
inductive TField where
  | data (kind : String) (enum_name : Option String)
      (kwargs : List (String × Val))
  | fk (target : String) (related_name : Val) (on_delete : String)
      (kwargs : List (String × Val))
  | o2o (target : String) (related_name : Val) (on_delete : String)
      (kwargs : List (String × Val))
  | m2m (target : String) (related_name : Val)
      (kwargs : List (String × Val))
deriving DecidableEq, Repr

/-- `fields._try_enum_field`: an `IntEnumField` or `CharEnumField` when the
field carries an `enum_type` whose base is `int` resp. `str`, else `None`. -/
def try_enum_field (info : FieldInfo) : Option TField :=
  match info.enum_type with
  | Option.none => Option.none
  | some et =>
    match et.base with
    | EnumBase.intBase =>
      some (TField.data "IntEnumField" (some et.name) (common_kwargs info))
    | EnumBase.strBase =>
      some (TField.data "CharEnumField" (some et.name)
        (common_kwargs info
          ++ [("max_length", Val.int (pyOrNat info.max_length 255))]))
    | EnumBase.otherBase => Option.none

/-- `fields._auto_field` / `_big_auto_field` / `_small_auto_field`. -/
def auto_field (kind : String) (_info : FieldInfo) : TField :=
  TField.data kind Option.none
    [("primary_key", Val.bool true), ("generated", Val.bool true)]

/-- `fields._int_field` and its five integer siblings:
`_try_enum_field(info) or <IntKind>(**_common_kwargs(info))`. -/
def int_like_field (kind : String) (info : FieldInfo) : TField :=
  (try_enum_field info).getD (TField.data kind Option.none (common_kwargs info))

/-- `fields._char_field`: enum first, else a `CharField` with
`max_length = info.max_length or 255`. -/
def char_field (info : FieldInfo) : TField :=
  match try_enum_field info with
  | some f => f
  | Option.none =>
    TField.data "CharField" Option.none
      (common_kwargs info
        ++ [("max_length", Val.int (pyOrNat info.max_length 255))])

/-- The passthrough converters (`_text_field`, `_bool_field`, the date/time
fields, `_float_field`, `_binary_field`, `_uuid_field`, `_json_field`):
`<Kind>(**_common_kwargs(info))`. -/
def plain_field (kind : String) (info : FieldInfo) : TField :=
  TField.data kind Option.none (common_kwargs info)

/-- `fields._decimal_field`: carries `max_digits` and `decimal_places`
(`None` becomes the explicit absence value). -/
def decimal_field (info : FieldInfo) : TField :=
  TField.data "DecimalField" Option.none
    (common_kwargs info
      ++ [("max_digits",
             match info.max_digits with
             | some n => Val.int n
             | Option.none => Val.none),
          ("decimal_places",
             match info.decimal_places with
             | some n => Val.int n
             | Option.none => Val.none)])

/-- `fields._file_field` / `_image_field` / `_filepath_field` /
`_slug_field` / `_email_field` / `_url_field`: a `CharField` bounded by
`info.max_length or default_max`. -/
def char_like_field (default_max : Nat) (info : FieldInfo) : TField :=
  TField.data "CharField" Option.none
    (common_kwargs info
      ++ [("max_length", Val.int (pyOrNat info.max_length default_max))])

/-- `fields._ip_field`: a `CharField` whose `max_length` is always `39`. -/
def ip_field (info : FieldInfo) : TField :=
  TField.data "CharField" Option.none
    (common_kwargs info ++ [("max_length", Val.int 39)])

/-- `fields.FIELD_MAP`: Django `internal_type` string → live converter, in
registration order. -/
def FIELD_MAP : List (String × (FieldInfo → TField)) :=
  [("AutoField", auto_field "IntField"),
   ("BigAutoField", auto_field "BigIntField"),
   ("SmallAutoField", auto_field "SmallIntField"),
   ("IntegerField", int_like_field "IntField"),
   ("BigIntegerField", int_like_field "BigIntField"),
   ("SmallIntegerField", int_like_field "SmallIntField"),
   ("PositiveIntegerField", int_like_field "IntField"),
   ("PositiveBigIntegerField", int_like_field "BigIntField"),
   ("PositiveSmallIntegerField", int_like_field "SmallIntField"),
   ("CharField", char_field),
   ("TextField", plain_field "TextField"),
   ("BooleanField", plain_field "BooleanField"),
   ("DateField", plain_field "DateField"),
   ("DateTimeField", plain_field "DatetimeField"),
   ("TimeField", plain_field "TimeField"),
   ("DurationField", plain_field "TimeDeltaField"),
   ("DecimalField", decimal_field),
   ("FloatField", plain_field "FloatField"),
   ("BinaryField", plain_field "BinaryField"),
   ("UUIDField", plain_field "UUIDField"),
   ("JSONField", plain_field "JSONField"),
   ("FileField", char_like_field 100),
   ("ImageField", char_like_field 100),
   ("FilePathField", char_like_field 100),
   ("SlugField", char_like_field 50),
   ("EmailField", char_like_field 254),
   ("URLField", char_like_field 200),
   ("GenericIPAddressField", ip_field)]

/-- `fields.convert_field`: dispatch through `FIELD_MAP`; `None` (with a
logged warning) when the `internal_type` has no registered converter. -/
def convert_field (fi : FieldInfo) : Option TField :=
  match FIELD_MAP.lookup fi.internal_type with
  | Option.none => Option.none
  | some converter => some (converter fi)

/-- `fields.ON_DELETE_MAP`: Django `on_delete` name → Tortoise `OnDelete`
member name. -/
def ON_DELETE_MAP : List (String × String) :=
  [("CASCADE", "CASCADE"),
   ("SET_NULL", "SET_NULL"),
   ("SET_DEFAULT", "SET_DEFAULT"),
   ("PROTECT", "RESTRICT"),
   ("RESTRICT", "RESTRICT"),
   ("DO_NOTHING", "NO_ACTION")]

/-- `fields._map_on_delete`: `None` maps to `CASCADE`; otherwise
`ON_DELETE_MAP.get(name, "CASCADE")`. -/
def map_on_delete (django_on_delete : Option String) : String :=
  match django_on_delete with
  | Option.none => "CASCADE"
  | some name => (ON_DELETE_MAP.lookup name).getD "CASCADE"

/-- The `related_name` argument both relation builders compute: the source
name unless it is absent, empty or the `"+"` sentinel, in which case the
explicit disable value `False`. -/
def relation_related_name (info : FieldInfo) : Val :=
  match info.related_name with
  | some rn => if rn ≠ "" ∧ rn ≠ "+" then Val.str rn else Val.bool false
  | Option.none => Val.bool false

/-- `fields._build_fk`. -/
def build_fk (info : FieldInfo) (target_ref : String) : String × TField :=
  (info.name,
   TField.fk target_ref (relation_related_name info)
     (map_on_delete info.on_delete)
     ((if info.column ≠ "" then [("source_field", Val.str info.column)] else [])
       ++ (if info.null then [("null", Val.bool true)] else [])))

/-- `fields._build_o2o`. -/
def build_o2o (info : FieldInfo) (target_ref : String) : String × TField :=
  (info.name,
   TField.o2o target_ref (relation_related_name info)
     (map_on_delete info.on_delete)
     ((if info.column ≠ "" then [("source_field", Val.str info.column)] else [])
       ++ (if info.null then [("null", Val.bool true)] else [])))

/-- `fields._build_m2m`. -/
def build_m2m (info : FieldInfo) (target_ref : String) : String × TField :=
  (info.name,
   TField.m2m target_ref (relation_related_name info)
     (match info.through_db_table with
      | some t => if t ≠ "" then [("through", Val.str t)] else []
      | Option.none => []))

/-- `fields._convert_relation_to_field`: dispatch on the relation kind. -/
def convert_relation_to_field (fi : FieldInfo) (target_ref : String) :
    Option (String × TField) :=
  if fi.internal_type = "ForeignKey" then some (build_fk fi target_ref)
  else if fi.internal_type = "OneToOneField" then some (build_o2o fi target_ref)
  else if fi.many_to_many then some (build_m2m fi target_ref)
  else Option.none

/-- The warning `convert_relation_field_by_name` logs when the relation
field has no related model. -/
def no_related_model_warning (field_name : String) : String :=
  "Relation field " ++ pyQuote field_name ++ " has no related model. Skipping."

/-- The warning logged when the relation target is not in the class-name map
(excluded or failed model); it names the target through
`related_model_label`. -/
def unresolved_target_warning (field_name : String)
    (label : Option String) : String :=
  "Relation field " ++ pyQuote field_name
    ++ " points to unregistered/excluded model "
    ++ pyQuote (label.getD "None") ++ ". Skipping."

/-- `fields.convert_relation_field_by_name`, with the logged warnings made
explicit in the second component.  The class-name map keys Django model
identities to planned Tortoise class names. -/
def convert_relation_field_by_nameW (fi : FieldInfo)
    (tortoise_app_name : String) (class_name_map : List (Nat × String)) :
    Option (String × TField) × List String :=
  match fi.related_model with
  | Option.none => (Option.none, [no_related_model_warning fi.name])
  | some target =>
    match class_name_map.lookup target with
    | Option.none =>
      (Option.none, [unresolved_target_warning fi.name fi.related_model_label])
    | some tortoise_class_name =>
      (convert_relation_to_field fi
        (tortoise_app_name ++ "." ++ tortoise_class_name), [])

/-- `fields.convert_relation_field_by_name` (result only). -/
def convert_relation_field_by_name (fi : FieldInfo)
    (tortoise_app_name : String) (class_name_map : List (Nat × String)) :
    Option (String × TField) :=
  (convert_relation_field_by_nameW fi tortoise_app_name class_name_map).1

/-! ## Source-text rendering (`code_generator.py`) -/

/-- `code_generator._format_kwargs`: `", ".join(f"{k}={v}" ...)`. -/
def format_kwargs (kwargs : List (String × String)) : String :=
  String.intercalate ", " (kwargs.map (fun p => p.1 ++ "=" ++ p.2))

/-- Python `del d[k]`: remove the (unique) entry with key `k`. -/
def dictErase {α : Type} : List (String × α) → String → List (String × α)
  | [], _ => []
  | (k', v') :: rest, k =>
    if k' = k then rest else (k', v') :: dictErase rest k

/-- `code_generator._extract_todo_comment`: pop the `"# TODO"` sentinel and
produce the trailing comment, if the sentinel is present. -/
def extract_todo_comment (kwargs : List (String × String))
    (field_name : String) : List (String × String) × Option String :=
  if ((kwargs.lookup "# TODO").isSome : Bool) then
    (dictErase kwargs "# TODO",
     some ("  # TODO: set default for " ++ pyQuote field_name))
  else (kwargs, Option.none)

/-- `code_generator._try_enum_field_source`. -/
def try_enum_field_source (info : FieldInfo) : Option String :=
  match info.enum_type with
  | Option.none => Option.none
  | some et =>
    let kwargs := (extract_todo_comment (common_kwargs_source info) info.name).1
    match et.base with
    | EnumBase.intBase =>
      let extra := format_kwargs kwargs
      some ("fields.IntEnumField("
        ++ String.intercalate ", " ([et.name] ++ (if extra ≠ "" then [extra] else []))
        ++ ")")
    | EnumBase.strBase =>
      let kwargs := kwargs
        ++ [("max_length", toString (pyOrNat info.max_length 255))]
      let extra := format_kwargs kwargs
      some ("fields.CharEnumField("
        ++ String.intercalate ", " ([et.name] ++ (if extra ≠ "" then [extra] else []))
        ++ ")")
    | EnumBase.otherBase => Option.none

/-- `code_generator._auto_source` / `_big_auto_source` / `_small_auto_source`. -/
def auto_source (kind : String) (_info : FieldInfo) : Option String :=
  some ("fields." ++ kind ++ "(primary_key=True, generated=True)")

/-- Assemble `fields.<Kind>(<kwargs>)` plus the optional TODO comment. -/
def field_call_source (kind : String) (kwargs : List (String × String))
    (comment : Option String) : String :=
  "fields." ++ kind ++ "(" ++ format_kwargs kwargs ++ ")" ++ comment.getD ""

/-- `code_generator._int_field_source` (the factory used for the six integer
kinds): enum source first, else the generic rendering. -/
def int_like_source (kind : String) (info : FieldInfo) : Option String :=
  match try_enum_field_source info with
  | some enum_src => some enum_src
  | Option.none =>
    let p := extract_todo_comment (common_kwargs_source info) info.name
    some (field_call_source kind p.1 p.2)

/-- `code_generator._char_source`: enum source first, else a `CharField`
with `max_length = repr(info.max_length or 255)`. -/
def char_source (info : FieldInfo) : Option String :=
  match try_enum_field_source info with
  | some enum_src => some enum_src
  | Option.none =>
    let p := extract_todo_comment (common_kwargs_source info) info.name
    some (field_call_source "CharField"
      (p.1 ++ [("max_length", toString (pyOrNat info.max_length 255))]) p.2)

/-- The passthrough source renderers (`_text_source`, `_bool_source`, the
date/time renderers, `_float_source`, `_binary_source`, `_uuid_source`,
`_json_source`). -/
def plain_source (kind : String) (info : FieldInfo) : Option String :=
  let p := extract_todo_comment (common_kwargs_source info) info.name
  some (field_call_source kind p.1 p.2)

/-- `repr` of an `int | None` value as the decimal renderer emits it. -/
def pyReprOptNat : Option Nat → String
  | some n => toString n
  | Option.none => "None"

/-- `code_generator._decimal_source`. -/
def decimal_source (info : FieldInfo) : Option String :=
  let p := extract_todo_comment (common_kwargs_source info) info.name
  some (field_call_source "DecimalField"
    (p.1 ++ [("max_digits", pyReprOptNat info.max_digits),
             ("decimal_places", pyReprOptNat info.decimal_places)]) p.2)

/-- The keyword arguments and TODO comment of the file-like and char-like
source renderers (`_file_like_source` / `_char_like_source` factories):
common kwargs, then `max_length = repr(info.max_length or default_max)`. -/
def char_like_source_kwargs (default_max : Nat) (info : FieldInfo) :
    List (String × String) × Option String :=
  let p := extract_todo_comment (common_kwargs_source info) info.name
  (p.1 ++ [("max_length", toString (pyOrNat info.max_length default_max))], p.2)

/-- `code_generator._file_like_source` / `_char_like_source`: a `CharField`
bounded by `info.max_length or default_max`. -/
def char_like_source (default_max : Nat) (info : FieldInfo) : Option String :=
  let p := char_like_source_kwargs default_max info
  some (field_call_source "CharField" p.1 p.2)

/-- `code_generator._ip_source`: a `CharField` whose `max_length` is the
literal `"39"`. -/
def ip_source (info : FieldInfo) : Option String :=
  let p := extract_todo_comment (common_kwargs_source info) info.name
  some (field_call_source "CharField" (p.1 ++ [("max_length", "39")]) p.2)

/-- `code_generator.SOURCE_FIELD_MAP`: Django `internal_type` string →
source renderer, in registration order (the same key sequence as
`FIELD_MAP`). -/
def SOURCE_FIELD_MAP : List (String × (FieldInfo → Option String)) :=
  [("AutoField", auto_source "IntField"),
   ("BigAutoField", auto_source "BigIntField"),
   ("SmallAutoField", auto_source "SmallIntField"),
   ("IntegerField", int_like_source "IntField"),
   ("BigIntegerField", int_like_source "BigIntField"),
   ("SmallIntegerField", int_like_source "SmallIntField"),
   ("PositiveIntegerField", int_like_source "IntField"),
   ("PositiveBigIntegerField", int_like_source "BigIntField"),
   ("PositiveSmallIntegerField", int_like_source "SmallIntField"),
   ("CharField", char_source),
   ("TextField", plain_source "TextField"),
   ("BooleanField", plain_source "BooleanField"),
   ("DateField", plain_source "DateField"),
   ("DateTimeField", plain_source "DatetimeField"),
   ("TimeField", plain_source "TimeField"),
   ("DurationField", plain_source "TimeDeltaField"),
   ("DecimalField", decimal_source),
   ("FloatField", plain_source "FloatField"),
   ("BinaryField", plain_source "BinaryField"),
   ("UUIDField", plain_source "UUIDField"),
   ("JSONField", plain_source "JSONField"),
   ("FileField", char_like_source 100),
   ("ImageField", char_like_source 100),
   ("FilePathField", char_like_source 100),
   ("SlugField", char_like_source 50),
   ("EmailField", char_like_source 254),
   ("URLField", char_like_source 200),
   ("GenericIPAddressField", ip_source)]

/-- `code_generator.render_field_source`: dispatch through
`SOURCE_FIELD_MAP`; `None` (with a logged warning) when the `internal_type`
has no registered renderer. -/
def render_field_source (fi : FieldInfo) : Option String :=
  match SOURCE_FIELD_MAP.lookup fi.internal_type with
  | Option.none => Option.none
  | some renderer => renderer fi

/-- The `related_name` source argument of the three relation renderers:
`repr(related_name)` unless absent, empty or `"+"`, then `"False"`. -/
def relation_related_name_source (fi : FieldInfo) : String :=
  match fi.related_name with
  | some rn => if rn ≠ "" ∧ rn ≠ "+" then pyQuote rn else "False"
  | Option.none => "False"

/-- `code_generator._render_fk_source` /  `_render_o2o_source` (they differ
only in the field class name): `ON_DELETE_MAP.get(field_info.on_delete or
"", "CASCADE")`, then `related_name`, `on_delete`, `source_field`, `null`. -/
def render_fk_like_source (kind : String) (fi : FieldInfo)
    (target_ref : String) : String :=
  let on_delete_name := (ON_DELETE_MAP.lookup ((fi.on_delete).getD "")).getD "CASCADE"
  let kwargs :=
    [("related_name", relation_related_name_source fi)]
    ++ [("on_delete", "OnDelete." ++ on_delete_name)]
    ++ (if fi.column ≠ "" then [("source_field", pyQuote fi.column)] else [])
    ++ (if fi.null then [("null", "True")] else [])
  "fields." ++ kind ++ "(\"" ++ target_ref ++ "\", " ++ format_kwargs kwargs ++ ")"

/-- `code_generator._render_m2m_source`. -/
def render_m2m_source (fi : FieldInfo) (target_ref : String) : String :=
  let kwargs :=
    [("related_name", relation_related_name_source fi)]
    ++ (match fi.through_db_table with
        | some t => if t ≠ "" then [("through", pyQuote t)] else []
        | Option.none => [])
  "fields.ManyToManyField(\"" ++ target_ref ++ "\", " ++ format_kwargs kwargs ++ ")"

/-- `code_generator.render_relation_field_source`, with the logged warnings
made explicit in the second component. -/
def render_relation_field_sourceW (fi : FieldInfo)
    (tortoise_app_name : String) (class_name_map : List (Nat × String)) :
    Option (String × String) × List String :=
  match fi.related_model with
  | Option.none => (Option.none, [no_related_model_warning fi.name])
  | some target =>
    match class_name_map.lookup target with
    | Option.none =>
      (Option.none, [unresolved_target_warning fi.name fi.related_model_label])
    | some tortoise_class_name =>
      let target_ref := tortoise_app_name ++ "." ++ tortoise_class_name
      (if fi.internal_type = "ForeignKey" then
         some (fi.name, render_fk_like_source "ForeignKeyField" fi target_ref)
       else if fi.internal_type = "OneToOneField" then
         some (fi.name, render_fk_like_source "OneToOneField" fi target_ref)
       else if fi.many_to_many then
         some (fi.name, render_m2m_source fi target_ref)
       else Option.none, [])

/-! ## Live model generation (`generator.py`) -/

/-- `generator._build_data_fields` (the loop, with the dict and skipped list
threaded explicitly): convert every non-relational field, collecting the
converted fields keyed by name and the names of unsupported fields. -/
def build_data_fields_loop :
    List FieldInfo → List (String × TField) → List String →
    List (String × TField) × List String
  | [], acc, skipped => (acc, skipped)
  | fi :: rest, acc, skipped =>
    if fi.is_relation then build_data_fields_loop rest acc skipped
    else
      match convert_field fi with
      | Option.none => build_data_fields_loop rest acc (skipped ++ [fi.name])
      | some tf => build_data_fields_loop rest (dictInsert acc fi.name tf) skipped

/-- `generator._build_data_fields`. -/
def build_data_fields (fields : List FieldInfo) :
    List (String × TField) × List String :=
  build_data_fields_loop fields [] []

/-- The relational-field loop of `generator.generate_tortoise_model_full`:
each relation field whose conversion succeeds is added to the field dict. -/
def add_relation_fields (tortoise_app_name : String)
    (class_name_map : List (Nat × String)) :
    List FieldInfo → List (String × TField) → List (String × TField)
  | [], acc => acc
  | fi :: rest, acc =>
    if fi.is_relation then
      match convert_relation_field_by_name fi tortoise_app_name class_name_map with
      | Option.none => add_relation_fields tortoise_app_name class_name_map rest acc
      | some (field_name, tf) =>
        add_relation_fields tortoise_app_name class_name_map rest
          (dictInsert acc field_name tf)
    else add_relation_fields tortoise_app_name class_name_map rest acc

/-- The constraint loop shared verbatim by `generator._build_meta_class` and
`code_generator.render_model_source`: a constraint is valid when no field it
references is missing from the converted names; an invalid constraint is
dropped whole (first component: valid, second: dropped). -/
def partition_constraints :
    List (List String) → List String → List (List String) × List (List String)
  | [], _ => ([], [])
  | c :: rest, converted =>
    let p := partition_constraints rest converted
    if c.filter (fun f => ¬ f ∈ converted) = [] then (c :: p.1, p.2)
    else (p.1, c :: p.2)

/-- The warning logged when a `unique_together` constraint references
unconverted fields and is omitted. -/
def unique_together_warning (mi : ModelInfo) (constraint : List String) : String :=
  "unique_together constraint " ++ String.intercalate "," constraint
    ++ " on " ++ pyQuote (mi.app_label ++ "." ++ mi.model_name)
    ++ " references unconverted fields; omitting constraint."

/-- The inner `Meta` class of a generated Tortoise model: physical table,
Tortoise app namespace, and the retained `unique_together` constraints
(absent when none were retained). -/
structure MetaInfo where
  table : String
  app : String
  unique_together : Option (List (List String))
deriving DecidableEq, Repr

/-- `generator._build_meta_class`, with the logged warnings made explicit:
constraints are kept only when every referenced name is among the converted
field names; `unique_together` is set only when at least one constraint
survives. -/
def build_meta_classW (mi : ModelInfo) (tortoise_fields : List (String × TField))
    (tortoise_app_name : String) : MetaInfo × List String :=
  if mi.unique_together ≠ [] then
    let p := partition_constraints mi.unique_together (dictKeys tortoise_fields)
    ({ table := mi.db_table, app := tortoise_app_name,
       unique_together := if p.1 ≠ [] then some p.1 else Option.none },
     p.2.map (unique_together_warning mi))
  else
    ({ table := mi.db_table, app := tortoise_app_name,
       unique_together := Option.none }, [])

/-- A generated live Tortoise model: the class name passed to `type()`, the
field dict attached to the class, and the inner `Meta`. -/
structure GenModel where
  class_name : String
  fields : List (String × TField)
  meta : MetaInfo
deriving DecidableEq, Repr

/-- `generator.generate_tortoise_model_full`: data fields first; `None`
when no data field converts; otherwise the relational fields are added
through the class-name map and the `Meta` class is built from the complete
field dict. -/
def generate_tortoise_model_full (mi : ModelInfo) (tortoise_app_name : String)
    (class_name_map : List (Nat × String)) : Option GenModel :=
  let p := build_data_fields mi.fields
  if p.1 = [] then Option.none
  else
    let tortoise_fields :=
      add_relation_fields tortoise_app_name class_name_map mi.fields p.1
    some { class_name := mi.class_name ++ "Tortoise",
           fields := tortoise_fields,
           meta := (build_meta_classW mi tortoise_fields tortoise_app_name).1 }

/-! ## Model source rendering (`code_generator.render_model_source`) -/

/-- The mutable locals of `render_model_source`, threaded through its two
field loops.  `converted` mirrors the Python `converted_names` set (an
insertion-ordered duplicate-free list). -/
structure RenderAcc where
  field_lines : List String := []
  converted : List String := []
  skipped : List String := []
  imports : List String := []
  has_relations : Bool := false
deriving DecidableEq, Repr

/-- The import `_QUALIFIED_CALLABLES` triggers for a default value
(`import uuid` for `uuid.uuid4`), if any. -/
def qualified_import : Val → Option String
  | Val.qualifiedCallable module _ => some ("import " ++ module)
  | _ => Option.none

/-- The data-field loop of `render_model_source`: renders each
non-relational field, tracks converted names, skipped names, and the enum /
qualified-callable imports. -/
def render_data_loop (mi : ModelInfo) :
    List FieldInfo → RenderAcc → RenderAcc
  | [], acc => acc
  | fi :: rest, acc =>
    if fi.is_relation then render_data_loop mi rest acc
    else
      match render_field_source fi with
      | Option.none =>
        render_data_loop mi rest { acc with skipped := acc.skipped ++ [fi.name] }
      | some src =>
        let acc := { acc with
          field_lines := acc.field_lines ++ ["    " ++ fi.name ++ " = " ++ src],
          converted := setInsert acc.converted fi.name }
        let acc :=
          match fi.enum_type with
          | some et =>
            { acc with
              imports :=
                setInsert acc.imports ("from " ++ mi.module ++ " import " ++ et.name) }
          | Option.none => acc
        let acc :=
          if fi.has_default then
            match qualified_import fi.default with
            | some imp => { acc with imports := setInsert acc.imports imp }
            | Option.none => acc
          else acc
        render_data_loop mi rest acc

/-- The relational-field loop of `render_model_source`. -/
def render_relation_loop (tortoise_app_name : String)
    (class_name_map : List (Nat × String)) :
    List FieldInfo → RenderAcc → RenderAcc
  | [], acc => acc
  | fi :: rest, acc =>
    if fi.is_relation then
      match (render_relation_field_sourceW fi tortoise_app_name class_name_map).1 with
      | Option.none => render_relation_loop tortoise_app_name class_name_map rest acc
      | some (field_name, src) =>
        render_relation_loop tortoise_app_name class_name_map rest
          { acc with
            field_lines := acc.field_lines ++ ["    " ++ field_name ++ " = " ++ src],
            converted := setInsert acc.converted field_name,
            has_relations := true }
    else render_relation_loop tortoise_app_name class_name_map rest acc

/-- `repr` of one `unique_together` tuple (`('a',)` for a 1-tuple). -/
def pyReprTuple (c : List String) : String :=
  match c with
  | [x] => "(" ++ pyQuote x ++ ",)"
  | _ => "(" ++ String.intercalate ", " (c.map pyQuote) ++ ")"

/-- `repr` of the `valid_constraints` list of tuples. -/
def pyReprConstraints (cs : List (List String)) : String :=
  "[" ++ String.intercalate ", " (cs.map pyReprTuple) ++ "]"

/-- `code_generator.ModelSourceResult`, extended with the renderer's local
`converted_names` set and the retained `unique_together` constraints (the
locals the rendered text is built from), exposed for verification. -/
structure ModelSourceResult where
  class_name : String
  source : String
  imports : List String
  converted_names : List String
  meta_unique_together : Option (List (List String))
deriving DecidableEq, Repr

/-- The `Meta` block lines of `render_model_source`, with the retained
constraints also returned: `table`, `app`, and `unique_together` only when
at least one constraint survives the converted-names check. -/
def render_meta (mi : ModelInfo) (tortoise_app_name : String)
    (converted : List String) : List String × Option (List (List String)) :=
  let base := ["        table = \"" ++ mi.db_table ++ "\"",
               "        app = \"" ++ tortoise_app_name ++ "\""]
  if mi.unique_together ≠ [] then
    let p := partition_constraints mi.unique_together converted
    if p.1 ≠ [] then
      (base ++ ["        unique_together = " ++ pyReprConstraints p.1], some p.1)
    else (base, Option.none)
  else (base, Option.none)

/-- `code_generator.render_model_source`: data fields (collecting imports
and skip-comments), the no-convertible-fields gate, relational fields, the
`OnDelete` import, the `Meta` block, and the assembled class source. -/
def render_model_source (mi : ModelInfo) (tortoise_app_name : String)
    (class_name_map : List (Nat × String)) : Option ModelSourceResult :=
  let imports := setInsert (setInsert [] "from tortoise import fields")
    "from tortoise.models import Model"
  let class_name := mi.class_name ++ "Tortoise"
  let acc := render_data_loop mi mi.fields { imports := imports }
  if acc.converted = [] then Option.none
  else
    let acc := { acc with
      field_lines :=
        acc.field_lines
          ++ acc.skipped.map (fun n => "    # Skipped unsupported field: " ++ n) }
    let acc := render_relation_loop tortoise_app_name class_name_map mi.fields acc
    let acc :=
      if acc.has_relations then
        { acc with
          imports :=
            setInsert acc.imports "from tortoise.fields.relational import OnDelete" }
      else acc
    let meta := render_meta mi tortoise_app_name acc.converted
    let lines := ["class " ++ class_name ++ "(Model):"]
      ++ acc.field_lines ++ [""] ++ ["    class Meta:"] ++ meta.1
    some { class_name := class_name,
           source := String.intercalate "\n" lines,
           imports := acc.imports,
           converted_names := acc.converted,
           meta_unique_together := meta.2 }

/-- The set of field names attached to the live model generated by
`generate_tortoise_model_full` (the keys of the field dict passed to
`type()`), when the model survives. -/
def live_field_names (mi : ModelInfo) (tortoise_app_name : String)
    (class_name_map : List (Nat × String)) : Option (List String) :=
  (generate_tortoise_model_full mi tortoise_app_name class_name_map).map
    (fun g => dictKeys g.fields)

/-- The set of field names rendered into the class body by
`render_model_source` (its `converted_names`), when the model survives. -/
def text_field_names (mi : ModelInfo) (tortoise_app_name : String)
    (class_name_map : List (Nat × String)) : Option (List String) :=
  (render_model_source mi tortoise_app_name class_name_map).map
    (fun r => r.converted_names)

/-! ## The Pass-2 loop (`apps.DjangoTortoiseConfig.ready`) -/

/-- Python `dict.pop(k, None)` on the class-name map. -/
def eraseKeyNat (m : List (Nat × String)) (k : Nat) : List (Nat × String) :=
  m.filter (fun p => ¬ p.1 = k)

/-- Pass 2 of `DjangoTortoiseConfig.ready` (apps.py lines 72-83): each
eligible model is materialized with the full field set; on failure
(`generate_tortoise_model_full` returns `None`) its entry is popped from the
class-name map and the loop continues; on success the generated model is
registered.  Registration into the process-wide registry and the counters
are elided; the returned list is the sequence of registered
`(model identity, generated model)` pairs, the second component the final
class-name map. -/
def pass2 : List ModelInfo → List (Nat × String) →
    List (Nat × GenModel) × List (Nat × String)
  | [], class_name_map => ([], class_name_map)
  | mi :: rest, class_name_map =>
    match generate_tortoise_model_full mi "django_tortoise" class_name_map with
    | Option.none => pass2 rest (eraseKeyNat class_name_map mi.key)
    | some gm =>
      ((mi.key, gm) :: (pass2 rest class_name_map).1,
       (pass2 rest class_name_map).2)

/-! ## Configuration filtering (`conf.py`) -/

/-- Scan to the closing `]` of a character class, returning the class
characters and the remainder of the pattern (with its length bound, used
for termination of the matcher). -/
def findClose : (l : List Char) →
    Option (List Char × { rest : List Char // rest.length < l.length })
  | [] => Option.none
  | c :: t =>
    if c = ']' then some ([], ⟨t, by simp⟩)
    else
      match findClose t with
      | some (cls, ⟨rest, hr⟩) =>
        some (c :: cls, ⟨rest, by simp only [List.length_cons]; omega⟩)
      | Option.none => Option.none

/-- Parse a `[...]` class body (the text after the opening `[`) the way
`fnmatch.translate` scans it: an optional leading `!` negates, a `]`
directly after that is a literal class member, and the class runs to the
next `]`; `none` when there is no closing `]` (the `[` is then literal). -/
def parseBracket : (body : List Char) →
    Option (Bool × List Char × { rest : List Char // rest.length < body.length })
  | '!' :: ']' :: t =>
    match findClose t with
    | some (cls, ⟨rest, hr⟩) =>
      some (true, ']' :: cls, ⟨rest, by simp only [List.length_cons]; omega⟩)
    | Option.none => Option.none
  | '!' :: t =>
    match findClose t with
    | some (cls, ⟨rest, hr⟩) =>
      some (true, cls, ⟨rest, by simp only [List.length_cons]; omega⟩)
    | Option.none => Option.none
  | ']' :: t =>
    match findClose t with
    | some (cls, ⟨rest, hr⟩) =>
      some (false, ']' :: cls, ⟨rest, by simp only [List.length_cons]; omega⟩)
    | Option.none => Option.none
  | body =>
    match findClose body with
    | some (cls, ⟨rest, hr⟩) => some (false, cls, ⟨rest, hr⟩)
    | Option.none => Option.none

/-- Membership of a character in a class: `a-b` ranges (a trailing or
leading `-` is a literal), otherwise literal characters. -/
def charInClass : List Char → Char → Bool
  | [], _ => false
  | a :: '-' :: b :: rest, c =>
    (decide (a ≤ c) && decide (c ≤ b)) || charInClass rest c
  | a :: rest, c => (a == c) || charInClass rest c

/-- The glob matcher behind `fnmatch.fnmatch`: `*` matches any sequence,
`?` exactly one character, `[...]`/`[!...]` a character class, an unclosed
`[` is literal, and every other character matches itself. -/
def globMatch (p s : List Char) : Bool :=
  match p, s with
  | [], [] => true
  | [], _ :: _ => false
  | '*' :: ps, [] => globMatch ps []
  | '*' :: ps, c :: s' => globMatch ps (c :: s') || globMatch ('*' :: ps) s'
  | '?' :: _, [] => false
  | '?' :: ps, _ :: s' => globMatch ps s'
  | '[' :: body, s =>
    match parseBracket body with
    | some (neg, cls, ⟨rest, hrest⟩) =>
      match s with
      | [] => false
      | c :: s' =>
        (if neg then !(charInClass cls c) else charInClass cls c)
          && globMatch rest s'
    | Option.none =>
      match s with
      | [] => false
      | c :: s' => (c == '[') && globMatch body s'
  | _ :: _, [] => false
  | ch :: ps, c :: s' => (ch == c) && globMatch ps s'
termination_by 2 * p.length + s.length
decreasing_by
  all_goals simp_wf
  all_goals omega

/-- `fnmatch.fnmatch(name, pattern)` (POSIX: no case folding). -/
def fnmatch (name pattern : String) : Bool :=
  globMatch pattern.data name.data

/-- `conf.should_include`: EXCLUDE takes precedence over INCLUDE (any
matching exclusion pattern returns `False` immediately); include patterns
`None` means include everything, while an explicit list (even empty)
requires a match. -/
def should_include (label : String) (include_patterns : Option (List String))
    (exclude_patterns : Option (List String)) : Bool :=
  if (match exclude_patterns with
      | some pats => pats.any (fun p => fnmatch label p)
      | Option.none => false) then
    false
  else
    match include_patterns with
    | some pats => pats.any (fun p => fnmatch label p)
    | Option.none => true

/-! ## The lazy init gate (`initialization.py`)

The gate is a two-state machine over the module-global `_initialized` flag.
The coroutines are modelled sequentially: the flag is an explicit argument
and result, and the outcome of the bootstrap (`build_tortoise_config()`
followed by `Tortoise.init(config)`) is a parameter, `Except.error` carrying
the stringified cause of a raised exception. -/

/-- `exceptions.ConnectionError` (a `DjangoTortoiseError`), carrying its
message with the wrapped cause. -/
inductive DjangoTortoiseErr where
  | connection_error (message : String)
deriving DecidableEq, Repr

/-- `initialization.init`: a no-op when already flagged; otherwise the
bootstrap runs, and on failure the exception is wrapped in the typed
connection error while the flag is left unset (`_initialized = True` is only
reached after a successful `Tortoise.init`). -/
def init_step (inited : Bool) (bootstrap : Except String Unit) :
    Except DjangoTortoiseErr Unit × Bool :=
  if inited then (Except.ok (), inited)
  else
    match bootstrap with
    | Except.ok () => (Except.ok (), true)
    | Except.error exc =>
      (Except.error (DjangoTortoiseErr.connection_error
        ("Failed to initialize Tortoise ORM: " ++ exc)), inited)

/-- `initialization.ensure_initialized`: the unsynchronized fast path, then
(under the lock) the double-checked re-read of the flag, then `init()`. -/
def ensure_init_step (inited : Bool) (bootstrap : Except String Unit) :
    Except DjangoTortoiseErr Unit × Bool :=
  if inited then (Except.ok (), inited)
  else if inited then (Except.ok (), inited)
  else init_step inited bootstrap

/-! ## Concrete instances (used by witnesses and counterexamples) -/

/-- A `BigAutoField` primary key, as Django's default `id` introspects. -/
def exPK : FieldInfo :=
  { name := "id", internal_type := "BigAutoField", column := "id",
    primary_key := true, null := false, unique := false, has_default := false,
    default := Val.none, max_length := Option.none, max_digits := Option.none,
    decimal_places := Option.none, db_index := false, choices := Option.none,
    enum_type := Option.none, is_relation := false, related_model := Option.none,
    related_model_label := Option.none, on_delete := Option.none,
    related_name := Option.none, is_self_referential := false,
    many_to_many := false, through_model := Option.none,
    through_db_table := Option.none, is_auto_field := true }

/-- A unique, indexed 50-character `CharField` named `name`. -/
def exName : FieldInfo :=
  { exPK with
    name := "name", internal_type := "CharField", column := "name",
    primary_key := false, unique := true, db_index := true,
    max_length := some 50, is_auto_field := false }

/-- A `BooleanField` named `active` with default `True`. -/
def exActive : FieldInfo :=
  { exPK with
    name := "active", internal_type := "BooleanField",
    column := "active", primary_key := false, has_default := true,
    default := Val.bool true, is_auto_field := false }

/-- An indexed nullable `CharField` with `has_default=True, default=None`. -/
def exNickname : FieldInfo :=
  { exPK with
    name := "nickname", internal_type := "CharField",
    column := "nickname", primary_key := false, null := true,
    db_index := true, has_default := true, default := Val.none,
    max_length := some 30, is_auto_field := false }

/-- An `IntegerField` whose default is a lambda: an unserializable callable
(outside `_SAFE_CALLABLES` and `_QUALIFIED_CALLABLES`). -/
def exTodo : FieldInfo :=
  { exPK with
    name := "score", internal_type := "IntegerField",
    column := "score", primary_key := false, has_default := true,
    default := Val.otherCallable "<lambda>", is_auto_field := false }

/-- A `GenericIPAddressField` carrying an explicit `max_length` of 64. -/
def exIP : FieldInfo :=
  { exPK with
    name := "addr", internal_type := "GenericIPAddressField",
    column := "addr", primary_key := false, max_length := some 64,
    is_auto_field := false }

/-- A `SlugField` with no explicit `max_length`. -/
def exSlug : FieldInfo :=
  { exPK with
    name := "slug", internal_type := "SlugField", column := "slug",
    primary_key := false, max_length := Option.none, is_auto_field := false }

/-- A field of an unsupported kind (no registered converter). -/
def exUnsupported : FieldInfo :=
  { exPK with
    name := "geom", internal_type := "GeometryField",
    column := "geom", primary_key := false, is_auto_field := false }

/-- A `ForeignKey` named `ref` pointing at the model with identity 2. -/
def exFK : FieldInfo :=
  { exPK with
    name := "ref", internal_type := "ForeignKey", column := "ref_id",
    primary_key := false, is_relation := true, related_model := some 2,
    related_model_label := some "test.ModelD", on_delete := some "CASCADE",
    is_auto_field := false }

/-- A `ForeignKey` named `dangling` pointing at an identity (9) that is in
no class-name map below. -/
def exFKMissing : FieldInfo :=
  { exFK with
    name := "dangling", column := "dangling_id",
    related_model := some 9, related_model_label := some "test.Missing" }

/-- Model C (identity 1): pk, two data fields, a relation to model 2, and a
`unique_together` constraint. -/
def exMIC : ModelInfo :=
  { key := 1, class_name := "ModelC", module := "tests.testapp.models",
    app_label := "test", model_name := "modelc", db_table := "test_modelc",
    fields := [exPK, exName, exActive, exFK],
    unique_together := [["name", "active"], ["name", "missing_col"]],
    is_abstract := false, is_proxy := false, is_managed := true,
    pk_name := "id" }

/-- Model D (identity 2): only an unsupported field, so it has no
convertible data field and fails Pass-2 materialization. -/
def exMID : ModelInfo :=
  { exMIC with
    key := 2, class_name := "ModelD", model_name := "modeld",
    db_table := "test_modeld", fields := [exUnsupported],
    unique_together := [] }

/-- Model E (identity 3): pk plus a relation whose target is absent from
the class-name map. -/
def exMIE : ModelInfo :=
  { exMIC with
    key := 3, class_name := "ModelE", model_name := "modele",
    db_table := "test_modele", fields := [exPK, exName, exFKMissing],
    unique_together := [] }

/-- The Pass-1 class-name map for models 1 and 2. -/
def exMap : List (Nat × String) :=
  [(1, "ModelCTortoise"), (2, "ModelDTortoise")]

/-- The `"default"` entry `_common_kwargs_source` actually emits for a
default value (the placeholder `"None"` in the unserializable-callable
branch, the faithful representation everywhere else). -/
def default_repr_emitted (v : Val) : String :=
  match v with
  | Val.otherCallable _ => "None"
  | _ => default_source_repr v

/-- The Tortoise field class of a live conversion result, when it is a
non-relational field. -/
def live_kind : Option TField → Option String
  | some (TField.data kind _ _) => some kind
  | _ => Option.none

/-- The `max_length` keyword argument of a live conversion result, when it
is a non-relational field. -/
def live_max_length : Option TField → Option Val
  | some (TField.data _ _ kw) => kw.lookup "max_length"
  | _ => Option.none

/-! # Theorems -/

/-! ## Association-list helper lemmas -/

theorem lookup_append {α : Type} (l₁ l₂ : List (String × α)) (k : String) :
    (l₁ ++ l₂).lookup k
      = match l₁.lookup k with
        | some v => some v
        | Option.none => l₂.lookup k := by
  induction l₁ with
  | nil => simp
  | cons p t ih =>
    cases p with
    | mk k' v =>
      by_cases h : k = k'
      · simp [List.lookup, h]
      · simp only [List.cons_append, List.lookup_cons]
        have hb : (k == k') = false := by simp [h]
        simp [hb, ih]

theorem lookup_eq_none_of_not_mem_keys {α : Type}
    (l : List (String × α)) (k : String) (h : ¬ k ∈ dictKeys l) :
    l.lookup k = Option.none := by
  induction l with
  | nil => simp
  | cons p t ih =>
    cases p with
    | mk k' v =>
      simp only [dictKeys, List.map_cons, List.mem_cons] at h
      push_neg at h
      have hb : (k == k') = false := by simp [h.1]
      simp only [List.lookup_cons, hb]
      exact ih (by simpa [dictKeys] using h.2)

/-! ## C4 — cascade-policy translation -/

/-- **C4.** The cascade-policy translation maps source `RESTRICT` to
`RESTRICT`, `DO_NOTHING` to `NO_ACTION`, `PROTECT` to `RESTRICT`, and every
unset (`None`) or unrecognized policy name to `CASCADE`; the text renderer's
inline expression `ON_DELETE_MAP.get(on_delete or "", "CASCADE")` computes
exactly `_map_on_delete`. -/
theorem on_delete_policy_mapping :
    map_on_delete (some "RESTRICT") = "RESTRICT"
    ∧ map_on_delete (some "DO_NOTHING") = "NO_ACTION"
    ∧ map_on_delete (some "PROTECT") = "RESTRICT"
    ∧ map_on_delete Option.none = "CASCADE"
    ∧ (∀ s : String, ¬ s ∈ dictKeys ON_DELETE_MAP →
        map_on_delete (some s) = "CASCADE")
    ∧ (∀ od : Option String,
        (ON_DELETE_MAP.lookup (od.getD "")).getD "CASCADE" = map_on_delete od) := by
  refine ⟨rfl, rfl, rfl, rfl, ?_, ?_⟩
  · intro s hs
    show (ON_DELETE_MAP.lookup s).getD "CASCADE" = "CASCADE"
    rw [lookup_eq_none_of_not_mem_keys ON_DELETE_MAP s hs]
    rfl
  · intro od
    cases od <;> rfl

/-- Witness for C4: the unrecognized policy name `SET_RELATED` (not a key of
`ON_DELETE_MAP`) defaults to `CASCADE`. -/
theorem on_delete_policy_mapping_witness :
    map_on_delete (some "SET_RELATED") = "CASCADE" :=
  on_delete_policy_mapping.2.2.2.2.1 "SET_RELATED" (by decide)

/-! ## C9 — bootstrap failure leaves the gate uninitialized -/

/-- **C9.** When the connection bootstrap inside `init()` fails, `init()`
returns the typed `ConnectionError` wrapping the cause, the initialized flag
stays `false`, a subsequent `init()` or `ensure_initialized()` call runs the
bootstrap again (it behaves exactly like a first call), and a successful
retry initializes the gate. -/
theorem init_failure_leaves_gate_uninited :
    ∀ (exc : String) (retry : Except String Unit),
      (init_step false (Except.error exc)).1
        = Except.error (DjangoTortoiseErr.connection_error
            ("Failed to initialize Tortoise ORM: " ++ exc))
      ∧ (init_step false (Except.error exc)).2 = false
      ∧ init_step (init_step false (Except.error exc)).2 retry
          = init_step false retry
      ∧ ensure_init_step (init_step false (Except.error exc)).2 retry
          = init_step false retry
      ∧ init_step false (Except.ok ()) = (Except.ok (), true)
      ∧ ensure_init_step false (Except.ok ()) = (Except.ok (), true) := by
  intro exc retry
  exact ⟨rfl, rfl, rfl, rfl, rfl, rfl⟩

/-! ## C6 — inclusion/exclusion filtering -/

/-- **C6.** `should_include` is a pure function of its arguments; any
matching exclusion pattern forces `false` no matter what the inclusion
patterns say; inclusion patterns `None` include every label that is not
excluded; an empty inclusion list includes nothing. -/
theorem should_include_semantics :
    (∀ (label p : String) (excl : List String) (inc : Option (List String)),
        p ∈ excl → fnmatch label p = true →
        should_include label inc (some excl) = false)
    ∧ (∀ (label : String) (exc : Option (List String)),
        should_include label Option.none exc
          = !(match exc with
              | some pats => pats.any (fun q => fnmatch label q)
              | Option.none => false))
    ∧ (∀ (label : String) (exc : Option (List String)),
        should_include label (some []) exc = false) := by
  refine ⟨?_, ?_, ?_⟩
  · intro label p excl inc hmem hmatch
    have hany : excl.any (fun q => fnmatch label q) = true :=
      List.any_eq_true.mpr ⟨p, hmem, hmatch⟩
    simp [should_include, hany]
  · intro label exc
    cases exc with
    | none => rfl
    | some pats =>
      unfold should_include
      cases h : pats.any (fun q => fnmatch label q) <;> simp [h]
  · intro label exc
    unfold should_include
    split <;> simp

/-- Witness for C6: the label `django.contrib.auth.User` matches the
exclusion pattern `django.contrib.*`, so it is dropped even though the
inclusion pattern `*` also matches it. -/
theorem should_include_semantics_witness :
    should_include "django.contrib.auth.User" (some ["*"])
      (some ["django.contrib.*"]) = false :=
  should_include_semantics.1 "django.contrib.auth.User" "django.contrib.*"
    ["django.contrib.*"] (some ["*"]) (by simp)
    (by simp [fnmatch, globMatch])

/-! ## C5 / C10 — common-parameter extraction -/

theorem default_kwargs_source_lookup (v : Val) :
    (default_kwargs_source v).lookup "default" = some (default_repr_emitted v) := by
  cases v <;> rfl

theorem default_kwargs_source_lookup_other (v : Val) (k : String)
    (hk : ¬ k = "default") (hk2 : ¬ k = "# TODO") :
    (default_kwargs_source v).lookup k = Option.none := by
  have b1 : (k == "default") = false := beq_eq_false_iff_ne.mpr hk
  have b2 : (k == "# TODO") = false := beq_eq_false_iff_ne.mpr hk2
  cases v <;> simp [default_kwargs_source, List.lookup, b1, b2]

theorem common_kwargs_default_lookup (fi : FieldInfo) :
    (common_kwargs fi).lookup "default"
      = if fi.has_default then some fi.default else Option.none := by
  unfold common_kwargs
  by_cases h1 : fi.null <;> by_cases h2 : fi.primary_key <;>
    by_cases h3 : fi.column ≠ "" ∧ fi.column ≠ fi.name <;>
      by_cases h4 : fi.has_default <;>
        simp [h1, h2, h3, h4, List.lookup]

theorem common_kwargs_source_default_lookup (fi : FieldInfo) :
    (common_kwargs_source fi).lookup "default"
      = if fi.has_default then some (default_repr_emitted fi.default)
        else Option.none := by
  unfold common_kwargs_source
  by_cases h1 : fi.null <;> by_cases h2 : fi.unique <;>
    by_cases h3 : fi.db_index <;> by_cases h4 : fi.primary_key <;>
      by_cases h5 : fi.column ≠ "" ∧ fi.column ≠ fi.name <;>
        by_cases h6 : fi.has_default <;>
          simp [h1, h2, h3, h4, h5, h6, List.lookup,
            default_kwargs_source_lookup]

theorem common_kwargs_lookup_none (fi : FieldInfo) (k : String)
    (hk : ¬ k ∈ ["null", "primary_key", "source_field", "default"]) :
    (common_kwargs fi).lookup k = Option.none := by
  simp only [List.mem_cons, List.not_mem_nil, or_false, not_or] at hk
  obtain ⟨n1, n2, n3, n4⟩ := hk
  have b1 : (k == "null") = false := beq_eq_false_iff_ne.mpr n1
  have b2 : (k == "primary_key") = false := beq_eq_false_iff_ne.mpr n2
  have b3 : (k == "source_field") = false := beq_eq_false_iff_ne.mpr n3
  have b4 : (k == "default") = false := beq_eq_false_iff_ne.mpr n4
  unfold common_kwargs
  by_cases h1 : fi.null <;> by_cases h2 : fi.primary_key <;>
    by_cases h3 : fi.column ≠ "" ∧ fi.column ≠ fi.name <;>
      by_cases h4 : fi.has_default <;>
        simp [h1, h2, h3, h4, List.lookup, b1, b2, b3, b4]

theorem common_kwargs_source_flag_lookup (fi : FieldInfo) :
    ((common_kwargs_source fi).lookup "unique"
        = if fi.unique then some "True" else Option.none)
    ∧ ((common_kwargs_source fi).lookup "db_index"
        = if fi.db_index then some "True" else Option.none) := by
  unfold common_kwargs_source
  constructor <;>
    (by_cases h1 : fi.null <;> by_cases h2 : fi.unique <;>
      by_cases h3 : fi.db_index <;> by_cases h4 : fi.primary_key <;>
        by_cases h5 : fi.column ≠ "" ∧ fi.column ≠ fi.name <;>
          by_cases h6 : fi.has_default <;>
            simp [h1, h2, h3, h4, h5, h6, List.lookup,
              default_kwargs_source_lookup_other])

/-- **C5 (counterexample).** The claim fails as stated: for a field whose
declared default is an unserializable callable (here a lambda), the text
renderer does not emit a default equal to (representing) the source default
— it emits the `None` placeholder, which coincides with the rendering of the
null value, together with a TODO sentinel.  The live converter, by contrast,
does receive the source default itself. -/
theorem default_propagation_counterexample :
    exTodo.has_default = true
    ∧ (common_kwargs_source exTodo).lookup "default" = some "None"
    ∧ default_source_repr exTodo.default = "<lambda>"
    ∧ ("None" : String) ≠ "<lambda>"
    ∧ exTodo.default ≠ Val.none
    ∧ (common_kwargs_source exTodo).lookup "# TODO" = some "" := by
  refine ⟨rfl, rfl, rfl, by decide, by decide, rfl⟩

/-- **C5 (amended).** For every `FieldInfo` with `has_default` true, both
extractors emit an explicit default entry: the live converter's is always
the source default itself (even when it is the null value), and the text
renderer's is the faithful representation of the source default except when
the default is a callable outside the recognized safe/qualified sets, where
a `None` placeholder (with a TODO sentinel) is emitted instead.  With
`has_default` false neither emits a default entry — "no default" and
"default is null" never collapse. -/
theorem default_propagation (fi : FieldInfo) :
    (fi.has_default = true →
       (common_kwargs fi).lookup "default" = some fi.default
       ∧ (is_todo_default fi.default = false →
            (common_kwargs_source fi).lookup "default"
              = some (default_source_repr fi.default))
       ∧ (is_todo_default fi.default = true →
            (common_kwargs_source fi).lookup "default" = some "None"))
    ∧ (fi.has_default = false →
       (common_kwargs fi).lookup "default" = Option.none
       ∧ (common_kwargs_source fi).lookup "default" = Option.none) := by
  constructor
  · intro h
    refine ⟨by rw [common_kwargs_default_lookup, if_pos h], ?_, ?_⟩
    · intro ht
      rw [common_kwargs_source_default_lookup, if_pos h]
      cases hv : fi.default <;> simp_all [is_todo_default, default_repr_emitted]
    · intro ht
      rw [common_kwargs_source_default_lookup, if_pos h]
      cases hv : fi.default <;> simp_all [is_todo_default, default_repr_emitted]
  · intro h
    constructor
    · rw [common_kwargs_default_lookup, if_neg (by simp [h])]
    · rw [common_kwargs_source_default_lookup, if_neg (by simp [h])]

/-- Witness for C5 (amended): `exNickname` has `has_default=True` and
`default=None`; both extractors emit an explicit null default. -/
theorem default_propagation_witness :
    (common_kwargs exNickname).lookup "default" = some Val.none
    ∧ (common_kwargs_source exNickname).lookup "default" = some "None" :=
  ⟨((default_propagation exNickname).1 rfl).1,
   ((default_propagation exNickname).1 rfl).2.1 rfl⟩

/-! ## Field-level parity between the live converter and the text renderer -/

theorem lookup_isSome_congr {α β : Type} :
    ∀ (l₁ : List (String × α)) (l₂ : List (String × β)),
      dictKeys l₁ = dictKeys l₂ → ∀ k : String,
      (l₁.lookup k).isSome = (l₂.lookup k).isSome := by
  intro l₁
  induction l₁ with
  | nil =>
    intro l₂ h k
    cases l₂ with
    | nil => rfl
    | cons q t₂ => simp [dictKeys] at h
  | cons p t ih =>
    intro l₂ h k
    cases l₂ with
    | nil => simp [dictKeys] at h
    | cons q t₂ =>
      cases p with
      | mk k₁ v₁ =>
        cases q with
        | mk k₂ v₂ =>
          simp only [dictKeys, List.map_cons, List.cons.injEq] at h
          obtain ⟨hk, ht⟩ := h
          subst hk
          simp only [List.lookup_cons]
          cases hkk : (k == k₁)
          · exact ih t₂ ht k
          · rfl

theorem mem_snd_of_lookup {α : Type} :
    ∀ (l : List (String × α)) (k : String) (v : α),
      l.lookup k = some v → v ∈ l.map Prod.snd := by
  intro l
  induction l with
  | nil => intro k v h; simp at h
  | cons p t ih =>
    intro k v h
    cases p with
    | mk k₁ v₁ =>
      simp only [List.lookup_cons] at h
      cases hkk : (k == k₁)
      · rw [hkk] at h
        exact List.mem_cons_of_mem _ (ih k v h)
      · rw [hkk] at h
        simp only [Option.some.injEq] at h
        subst h
        exact List.mem_cons_self _ _

theorem source_renderer_total (fi : FieldInfo) (r : FieldInfo → Option String)
    (h : r ∈ SOURCE_FIELD_MAP.map Prod.snd) : (r fi).isSome := by
  simp only [SOURCE_FIELD_MAP, List.map_cons, List.map_nil, List.mem_cons,
    List.not_mem_nil, or_false] at h
  rcases h with rfl|rfl|rfl|rfl|rfl|rfl|rfl|rfl|rfl|rfl|rfl|rfl|rfl|rfl|
    rfl|rfl|rfl|rfl|rfl|rfl|rfl|rfl|rfl|rfl|rfl|rfl|rfl|rfl <;>
    first
      | rfl
      | (cases he : try_enum_field_source fi <;>
          simp [int_like_source, char_source, he])

/-- The two dispatch tables carry the same keys, a supported renderer never
returns `None`, so a field converts live exactly when it renders to text. -/
theorem data_field_parity (fi : FieldInfo) :
    (convert_field fi).isSome = (render_field_source fi).isSome := by
  have hdisp := lookup_isSome_congr FIELD_MAP SOURCE_FIELD_MAP rfl fi.internal_type
  unfold convert_field render_field_source
  cases h1 : FIELD_MAP.lookup fi.internal_type with
  | none =>
    cases h2 : SOURCE_FIELD_MAP.lookup fi.internal_type with
    | none => rfl
    | some r => rw [h1, h2] at hdisp; simp at hdisp
  | some c =>
    cases h2 : SOURCE_FIELD_MAP.lookup fi.internal_type with
    | none => rw [h1, h2] at hdisp; simp at hdisp
    | some r =>
      have := source_renderer_total fi r (mem_snd_of_lookup _ _ _ h2)
      simp [this]

/-- A relation field converts live exactly when it renders to text, and
under the same attribute name (`FieldInfo.name`). -/
theorem relation_field_parity (fi : FieldInfo) (app : String)
    (map : List (Nat × String)) :
    ((convert_relation_field_by_nameW fi app map).1).map Prod.fst
      = ((render_relation_field_sourceW fi app map).1).map Prod.fst := by
  unfold convert_relation_field_by_nameW render_relation_field_sourceW
  cases hrm : fi.related_model with
  | none => rfl
  | some target =>
    cases hl : map.lookup target with
    | none => simp only [hl]; rfl
    | some cname =>
      simp only [hl]
      unfold convert_relation_to_field
      split_ifs <;> simp [build_fk, build_o2o, build_m2m]

theorem dictKeys_dictInsert {α : Type} :
    ∀ (d : List (String × α)) (k : String) (v : α),
      dictKeys (dictInsert d k v) = setInsert (dictKeys d) k := by
  intro d
  induction d with
  | nil => intro k v; simp [dictInsert, dictKeys, setInsert]
  | cons p t ih =>
    intro k v
    cases p with
    | mk k₁ v₁ =>
      by_cases h : k₁ = k
      · subst h
        simp [dictInsert, dictKeys, setInsert]
      · have hne : ¬ k = k₁ := fun hk => h hk.symm
        have e1 : dictInsert ((k₁, v₁) :: t) k v = (k₁, v₁) :: dictInsert t k v := by
          simp [dictInsert, h]
        rw [e1]
        have e2 : dictKeys ((k₁, v₁) :: dictInsert t k v)
            = k₁ :: dictKeys (dictInsert t k v) := rfl
        rw [e2, ih k v]
        have e3 : dictKeys ((k₁, v₁) :: t) = k₁ :: dictKeys t := rfl
        rw [e3]
        unfold setInsert
        by_cases hm : k ∈ dictKeys t
        · simp [hm, hne]
        · simp [hm, hne]

/-- Invariant of the data-field loops: the text renderer's `converted_names`
set tracks exactly the keys of the live generator's field dict. -/
theorem render_data_converted (mi : ModelInfo) :
    ∀ (fields : List FieldInfo) (acc : RenderAcc)
      (dacc : List (String × TField)) (sk : List String),
      acc.converted = dictKeys dacc →
      (render_data_loop mi fields acc).converted
        = dictKeys (build_data_fields_loop fields dacc sk).1 := by
  intro fields
  induction fields with
  | nil =>
    intro acc dacc sk h
    simpa [render_data_loop, build_data_fields_loop] using h
  | cons fi rest ih =>
    intro acc dacc sk h
    by_cases hrel : fi.is_relation
    · simp only [render_data_loop, build_data_fields_loop, hrel, if_true]
      exact ih acc dacc sk h
    · have hpar := data_field_parity fi
      simp only [render_data_loop, build_data_fields_loop, hrel, if_false]
      cases hc : convert_field fi with
      | none =>
        cases hr : render_field_source fi with
        | none => exact ih _ dacc (sk ++ [fi.name]) h
        | some src => rw [hc, hr] at hpar; simp at hpar
      | some tf =>
        cases hr : render_field_source fi with
        | none => rw [hc, hr] at hpar; simp at hpar
        | some src =>
          refine ih _ (dictInsert dacc fi.name tf) sk ?_
          rw [dictKeys_dictInsert, ← h]
          cases he : fi.enum_type <;>
            by_cases hd : fi.has_default <;>
              cases hq : qualified_import fi.default <;>
                simp [he, hd, hq]

/-- Invariant of the relational-field loops. -/
theorem render_relation_converted (app : String) (map : List (Nat × String)) :
    ∀ (fields : List FieldInfo) (acc : RenderAcc)
      (dacc : List (String × TField)),
      acc.converted = dictKeys dacc →
      (render_relation_loop app map fields acc).converted
        = dictKeys (add_relation_fields app map fields dacc) := by
  intro fields
  induction fields with
  | nil =>
    intro acc dacc h
    simpa [render_relation_loop, add_relation_fields] using h
  | cons fi rest ih =>
    intro acc dacc h
    by_cases hrel : fi.is_relation
    · have hpar := relation_field_parity fi app map
      simp only [render_relation_loop, add_relation_fields,
        convert_relation_field_by_name, hrel, if_true]
      cases hc : (convert_relation_field_by_nameW fi app map).1 with
      | none =>
        cases hr : (render_relation_field_sourceW fi app map).1 with
        | none => exact ih acc dacc h
        | some p => rw [hc, hr] at hpar; simp at hpar
      | some q =>
        cases hr : (render_relation_field_sourceW fi app map).1 with
        | none => rw [hc, hr] at hpar; simp at hpar
        | some p =>
          rw [hc, hr] at hpar
          simp only [Option.map_some', Option.some.injEq] at hpar
          cases q with
          | mk qn qf =>
            cases p with
            | mk pn ps =>
              simp only at hpar
              subst hpar
              apply ih
              simp [dictKeys_dictInsert, h]
    · simp only [render_relation_loop, add_relation_fields, hrel, if_false]
      exact ih acc dacc h

/-- Workhorse for C1/C10: the live generator and the text renderer agree on
survival and produce identical field-name lists. -/
theorem live_text_names_agree :
    ∀ (mi : ModelInfo) (app : String) (map : List (Nat × String)),
      live_field_names mi app map = text_field_names mi app map := by
  intro mi app map
  have hdata : (render_data_loop mi mi.fields
      { imports := setInsert (setInsert [] "from tortoise import fields")
          "from tortoise.models import Model" }).converted
      = dictKeys (build_data_fields_loop mi.fields [] []).1 :=
    render_data_converted mi mi.fields _ [] [] rfl
  unfold live_field_names text_field_names generate_tortoise_model_full
    render_model_source build_data_fields
  by_cases hempty : (build_data_fields_loop mi.fields [] []).1 = []
  · rw [if_pos hempty]
    rw [if_pos (by rw [hdata, hempty]; rfl)]
    rfl
  · rw [if_neg hempty]
    rw [if_neg (by rw [hdata]; simpa [dictKeys] using hempty)]
    simp only [Option.map_some']
    congr 1
    have hrel := render_relation_converted app map mi.fields
      { render_data_loop mi mi.fields
          { imports := setInsert (setInsert [] "from tortoise import fields")
              "from tortoise.models import Model" } with
        field_lines :=
          (render_data_loop mi mi.fields
            { imports := setInsert (setInsert [] "from tortoise import fields")
                "from tortoise.models import Model" }).field_lines
          ++ (render_data_loop mi mi.fields
              { imports := setInsert (setInsert [] "from tortoise import fields")
                  "from tortoise.models import Model" }).skipped.map
                (fun n => "    # Skipped unsupported field: " ++ n) }
      (build_data_fields_loop mi.fields [] []).1 hdata
    rw [← hrel]
    cases hhr : (render_relation_loop app map mi.fields _).has_relations <;> simp

/-- **C1.** Field-name parity: given the same `ModelInfo`, Tortoise app
name and class-name map, `generate_tortoise_model_full` and
`render_model_source` agree on survival (both return `None` exactly when no
data field converts), and the list of field names attached to the live
class equals the list of field names rendered into the class body — in
particular the two field-name sets are identical for every model that
survives generation. -/
theorem field_name_parity :
    ∀ (mi : ModelInfo) (app : String) (map : List (Nat × String)),
      live_field_names mi app map = text_field_names mi app map :=
  live_text_names_agree

/-- **C10.** The live common-parameter extraction never passes `unique` or
`db_index` to the constructed Tortoise field, even when the flags are set on
the `FieldInfo`, while the text renderer emits `unique=True` and
`db_index=True` for the same `FieldInfo`; the two renderers nevertheless
agree on field names. -/
theorem unique_db_index_divergence (fi : FieldInfo) (mi : ModelInfo)
    (app : String) (map : List (Nat × String)) :
    (common_kwargs fi).lookup "unique" = Option.none
    ∧ (common_kwargs fi).lookup "db_index" = Option.none
    ∧ (fi.unique = true →
        (common_kwargs_source fi).lookup "unique" = some "True")
    ∧ (fi.db_index = true →
        (common_kwargs_source fi).lookup "db_index" = some "True")
    ∧ live_field_names mi app map = text_field_names mi app map :=
  ⟨common_kwargs_lookup_none fi "unique" (by decide),
   common_kwargs_lookup_none fi "db_index" (by decide),
   fun h => by rw [(common_kwargs_source_flag_lookup fi).1, if_pos h],
   fun h => by rw [(common_kwargs_source_flag_lookup fi).2, if_pos h],
   live_text_names_agree mi app map⟩

/-- Witness for C10: `exName` is unique and indexed; the live kwargs carry
neither flag, the text kwargs carry both. -/
theorem unique_db_index_divergence_witness :
    (common_kwargs exName).lookup "unique" = Option.none
    ∧ (common_kwargs exName).lookup "db_index" = Option.none
    ∧ (common_kwargs_source exName).lookup "unique" = some "True"
    ∧ (common_kwargs_source exName).lookup "db_index" = some "True" :=
  ⟨(unique_db_index_divergence exName exMIC "django_tortoise" exMap).1,
   (unique_db_index_divergence exName exMIC "django_tortoise" exMap).2.1,
   (unique_db_index_divergence exName exMIC "django_tortoise" exMap).2.2.1 rfl,
   (unique_db_index_divergence exName exMIC "django_tortoise" exMap).2.2.2.1 rfl⟩

/-! ## C2 — unresolved relation targets degrade gracefully -/

theorem build_data_fields_loop_skips (fi : FieldInfo)
    (hrel : fi.is_relation = true) :
    ∀ (l : List FieldInfo) (dacc : List (String × TField)) (sk : List String),
      build_data_fields_loop l dacc sk
        = build_data_fields_loop (l.erase fi) dacc sk := by
  intro l
  induction l with
  | nil => intro dacc sk; rfl
  | cons x rest ih =>
    intro dacc sk
    by_cases hx : x = fi
    · subst hx
      rw [List.erase_cons_head]
      simp [build_data_fields_loop, hrel]
    · rw [List.erase_cons_tail (by simp [hx])]
      by_cases hxr : x.is_relation
      · simp only [build_data_fields_loop, hxr, if_true]
        exact ih dacc sk
      · simp only [build_data_fields_loop, hxr, if_false]
        cases hc : convert_field x
        · exact ih dacc (sk ++ [x.name])
        · exact ih (dictInsert dacc x.name _) sk

theorem add_relation_fields_skips (fi : FieldInfo) (app : String)
    (map : List (Nat × String))
    (hdrop : convert_relation_field_by_name fi app map = Option.none) :
    ∀ (l : List FieldInfo) (dacc : List (String × TField)),
      add_relation_fields app map l dacc
        = add_relation_fields app map (l.erase fi) dacc := by
  intro l
  induction l with
  | nil => intro dacc; rfl
  | cons x rest ih =>
    intro dacc
    by_cases hx : x = fi
    · subst hx
      rw [List.erase_cons_head]
      by_cases hxr : x.is_relation
      · simp [add_relation_fields, hxr, hdrop]
      · simp [add_relation_fields, hxr]
    · rw [List.erase_cons_tail (by simp [hx])]
      by_cases hxr : x.is_relation
      · simp only [add_relation_fields, hxr, if_true]
        cases hc : convert_relation_field_by_name x app map with
        | none => exact ih dacc
        | some q =>
          cases q with
          | mk n f => exact ih (dictInsert dacc n f)
      · simp only [add_relation_fields, hxr, if_false]
        exact ih dacc

theorem dictInsert_ne_nil {α : Type} (d : List (String × α)) (k : String)
    (v : α) : dictInsert d k v ≠ [] := by
  cases d with
  | nil => simp [dictInsert]
  | cons p t =>
    cases p with
    | mk k' v' => by_cases h : k' = k <;> simp [dictInsert, h]

theorem build_data_fields_loop_nil_of (l : List FieldInfo) :
    ∀ (dacc : List (String × TField)) (sk : List String),
      (build_data_fields_loop l dacc sk).1 = [] → dacc = [] := by
  induction l with
  | nil => intro dacc sk h; exact h
  | cons x rest ih =>
    intro dacc sk h
    by_cases hxr : x.is_relation
    · rw [build_data_fields_loop, if_pos hxr] at h
      exact ih dacc sk h
    · rw [build_data_fields_loop, if_neg hxr] at h
      cases hc : convert_field x with
      | none =>
        rw [hc] at h
        exact ih dacc (sk ++ [x.name]) h
      | some tf =>
        rw [hc] at h
        exact absurd (ih (dictInsert dacc x.name tf) sk h)
          (dictInsert_ne_nil dacc x.name tf)

theorem build_data_fields_ne_nil (d : FieldInfo)
    (hd : d.is_relation = false) (hc : (convert_field d).isSome) :
    ∀ (l : List FieldInfo) (dacc : List (String × TField)) (sk : List String),
      d ∈ l → (build_data_fields_loop l dacc sk).1 ≠ [] := by
  intro l
  induction l with
  | nil => intro dacc sk h; simp at h
  | cons x rest ih =>
    intro dacc sk hmem hnil
    rcases List.mem_cons.mp hmem with hx | hx
    · subst hx
      rw [build_data_fields_loop, if_neg (by simp [hd])] at hnil
      cases hcc : convert_field d with
      | none => rw [hcc] at hc; simp at hc
      | some tf =>
        rw [hcc] at hnil
        exact absurd (build_data_fields_loop_nil_of rest _ _ hnil)
          (dictInsert_ne_nil dacc d.name tf)
    · by_cases hxr : x.is_relation
      · rw [build_data_fields_loop, if_pos hxr] at hnil
        exact ih dacc sk hx hnil
      · rw [build_data_fields_loop, if_neg hxr] at hnil
        cases hcc : convert_field x with
        | none =>
          rw [hcc] at hnil
          exact ih dacc (sk ++ [x.name]) hx hnil
        | some tf =>
          rw [hcc] at hnil
          exact ih (dictInsert dacc x.name tf) sk hx hnil

/-- **C2.** A relation field whose target is absent from the class-name map
converts to `None`, with exactly the warning naming the missing model's
label logged; the owning model still generates, containing exactly the
fields it would have without that relation field (the generated results are
equal), and generation is never aborted — the model survives whenever it has
at least one convertible data field. -/
theorem unresolved_relation_dropped (fi : FieldInfo) (app : String)
    (map : List (Nat × String)) (target : Nat) (mi : ModelInfo)
    (hrel : fi.is_relation = true)
    (hrm : fi.related_model = some target)
    (habs : map.lookup target = Option.none) :
    convert_relation_field_by_name fi app map = Option.none
    ∧ (convert_relation_field_by_nameW fi app map).2
        = [unresolved_target_warning fi.name fi.related_model_label]
    ∧ generate_tortoise_model_full mi app map
        = generate_tortoise_model_full
            { mi with fields := mi.fields.erase fi } app map
    ∧ ((∃ d, d ∈ mi.fields ∧ d.is_relation = false ∧ (convert_field d).isSome) →
        (generate_tortoise_model_full mi app map).isSome) := by
  have hdrop : convert_relation_field_by_name fi app map = Option.none := by
    unfold convert_relation_field_by_name convert_relation_field_by_nameW
    rw [hrm]
    simp [habs]
  refine ⟨hdrop, ?_, ?_, ?_⟩
  · unfold convert_relation_field_by_nameW
    rw [hrm]
    simp [habs]
  · unfold generate_tortoise_model_full build_data_fields
    rw [show ({ mi with fields := mi.fields.erase fi } : ModelInfo).fields
          = mi.fields.erase fi from rfl]
    rw [← build_data_fields_loop_skips fi hrel mi.fields [] []]
    by_cases hempty : (build_data_fields_loop mi.fields [] []).1 = []
    · rw [if_pos hempty, if_pos hempty]
    · rw [if_neg hempty, if_neg hempty]
      rw [← add_relation_fields_skips fi app map hdrop mi.fields]
      rfl
  · rintro ⟨d, hdmem, hdrel, hdconv⟩
    unfold generate_tortoise_model_full build_data_fields
    rw [if_neg (build_data_fields_ne_nil d hdrel hdconv mi.fields [] [] hdmem)]
    rfl

/-- Witness for C2: `exMIE` owns the dangling relation `exFKMissing` (its
target, identity 9, is not in `exMap`); the relation converts to `None` yet
the model still generates. -/
theorem unresolved_relation_dropped_witness :
    convert_relation_field_by_name exFKMissing "django_tortoise" exMap
        = Option.none
    ∧ (generate_tortoise_model_full exMIE "django_tortoise" exMap).isSome :=
  ⟨(unresolved_relation_dropped exFKMissing "django_tortoise" exMap 9 exMIE
      rfl rfl rfl).1,
   (unresolved_relation_dropped exFKMissing "django_tortoise" exMap 9 exMIE
      rfl rfl rfl).2.2.2 ⟨exPK, by decide, rfl, rfl⟩⟩

/-! ## C7 — all-or-nothing retention of unique_together constraints -/

theorem partition_constraints_mem_valid :
    ∀ (cs : List (List String)) (names : List String) (c : List String),
      c ∈ (partition_constraints cs names).1
        ↔ (c ∈ cs ∧ ∀ f ∈ c, f ∈ names) := by
  intro cs
  induction cs with
  | nil => intro names c; simp [partition_constraints]
  | cons c0 rest ih =>
    intro names c
    by_cases h0 : c0.filter (fun f => ¬ f ∈ names) = []
    · simp only [partition_constraints, if_pos h0]
      constructor
      · intro h
        rcases List.mem_cons.mp h with rfl | h
        · refine ⟨List.mem_cons_self _ _, ?_⟩
          intro f hf
          by_contra hfn
          exact hfn (by simpa using List.filter_eq_nil_iff.mp h0 f hf)
        · have := (ih names c).mp h
          exact ⟨List.mem_cons_of_mem _ this.1, this.2⟩
      · rintro ⟨hmem, hall⟩
        rcases List.mem_cons.mp hmem with rfl | hmem
        · exact List.mem_cons_self _ _
        · exact List.mem_cons_of_mem _ ((ih names c).mpr ⟨hmem, hall⟩)
    · simp only [partition_constraints, if_neg h0]
      constructor
      · intro h
        have := (ih names c).mp h
        exact ⟨List.mem_cons_of_mem _ this.1, this.2⟩
      · rintro ⟨hmem, hall⟩
        rcases List.mem_cons.mp hmem with rfl | hmem
        · exact absurd (List.filter_eq_nil_iff.mpr
            (fun f hf => by simpa using hall f hf)) h0
        · exact (ih names c).mpr ⟨hmem, hall⟩

theorem partition_constraints_mem_invalid :
    ∀ (cs : List (List String)) (names : List String) (c : List String),
      c ∈ (partition_constraints cs names).2
        ↔ (c ∈ cs ∧ ¬ ∀ f ∈ c, f ∈ names) := by
  intro cs
  induction cs with
  | nil => intro names c; simp [partition_constraints]
  | cons c0 rest ih =>
    intro names c
    by_cases h0 : c0.filter (fun f => ¬ f ∈ names) = []
    · simp only [partition_constraints, if_pos h0]
      constructor
      · intro h
        have := (ih names c).mp h
        exact ⟨List.mem_cons_of_mem _ this.1, this.2⟩
      · rintro ⟨hmem, hall⟩
        rcases List.mem_cons.mp hmem with rfl | hmem
        · exact absurd (fun f hf => by
            by_contra hfn
            exact hfn (by simpa using List.filter_eq_nil_iff.mp h0 f hf)) hall
        · exact (ih names c).mpr ⟨hmem, hall⟩
    · simp only [partition_constraints, if_neg h0]
      constructor
      · intro h
        rcases List.mem_cons.mp h with rfl | h
        · refine ⟨List.mem_cons_self _ _, ?_⟩
          intro hall
          exact h0 (List.filter_eq_nil_iff.mpr (fun f hf => by simpa using hall f hf))
        · have := (ih names c).mp h
          exact ⟨List.mem_cons_of_mem _ this.1, this.2⟩
      · rintro ⟨hmem, hall⟩
        rcases List.mem_cons.mp hmem with rfl | hmem
        · exact List.mem_cons_self _ _
        · exact List.mem_cons_of_mem _ ((ih names c).mpr ⟨hmem, hall⟩)

/-- The shape shared by `_build_meta_class` and `render_model_source`'s meta
block: the retained constraints are exactly those whose every field is among
the converted names. -/
theorem retained_ut_mem (cs : List (List String)) (names : List String)
    (c : List String) :
    c ∈ (if cs ≠ [] then
           (if (partition_constraints cs names).1 ≠ []
            then some (partition_constraints cs names).1
            else Option.none)
         else Option.none).getD []
      ↔ (c ∈ cs ∧ ∀ f ∈ c, f ∈ names) := by
  by_cases hcs : cs ≠ []
  · rw [if_pos hcs]
    by_cases hv : (partition_constraints cs names).1 ≠ []
    · rw [if_pos hv]
      exact partition_constraints_mem_valid cs names c
    · rw [if_neg hv]
      push_neg at hv
      have := partition_constraints_mem_valid cs names c
      rw [hv] at this
      simpa using this.symm.mp
  · rw [if_neg hcs]
    push_neg at hcs
    subst hcs
    simp

theorem build_meta_ut_mem (mi : ModelInfo) (tfields : List (String × TField))
    (app : String) (c : List String) :
    c ∈ ((build_meta_classW mi tfields app).1.unique_together).getD []
      ↔ (c ∈ mi.unique_together ∧ ∀ f ∈ c, f ∈ dictKeys tfields) := by
  have := retained_ut_mem mi.unique_together (dictKeys tfields) c
  unfold build_meta_classW
  by_cases hcs : mi.unique_together ≠ []
  · rw [if_pos hcs] at this ⊢
    exact this
  · rw [if_neg hcs] at this ⊢
    exact this

theorem render_meta_ut_mem (mi : ModelInfo) (app : String)
    (conv : List String) (c : List String) :
    c ∈ ((render_meta mi app conv).2).getD []
      ↔ (c ∈ mi.unique_together ∧ ∀ f ∈ c, f ∈ conv) := by
  have := retained_ut_mem mi.unique_together conv c
  unfold render_meta
  by_cases hcs : mi.unique_together ≠ []
  · rw [if_pos hcs] at this ⊢
    by_cases hv : (partition_constraints mi.unique_together conv).1 ≠ []
    · rw [if_pos hv] at this ⊢
      exact this
    · rw [if_neg hv] at this ⊢
      exact this
  · rw [if_neg hcs] at this ⊢
    exact this

/-- **C7.** A `unique_together` constraint appears in the generated metadata
— in the live `Meta` class and in the rendered text — if and only if it is
one of the model's constraints and every field name it references is among
the converted field names; a constraint referencing any unconverted field is
omitted whole, with a warning, and a constraint never appears trimmed (every
retained constraint is an original one). -/
theorem unique_together_retention (mi : ModelInfo) (app : String)
    (map : List (Nat × String)) :
    (∀ g, generate_tortoise_model_full mi app map = some g →
       ∀ c, (c ∈ (g.meta.unique_together).getD []
         ↔ (c ∈ mi.unique_together ∧ ∀ f ∈ c, f ∈ dictKeys g.fields)))
    ∧ (∀ r, render_model_source mi app map = some r →
       ∀ c, (c ∈ (r.meta_unique_together).getD []
         ↔ (c ∈ mi.unique_together ∧ ∀ f ∈ c, f ∈ r.converted_names)))
    ∧ (∀ (tfields : List (String × TField)) (c : List String),
        c ∈ mi.unique_together →
        (¬ ∀ f ∈ c, f ∈ dictKeys tfields) →
        unique_together_warning mi c ∈ (build_meta_classW mi tfields app).2) := by
  refine ⟨?_, ?_, ?_⟩
  · intro g hg c
    unfold generate_tortoise_model_full at hg
    by_cases hempty : (build_data_fields mi.fields).1 = []
    · rw [if_pos hempty] at hg
      exact Option.noConfusion hg
    · rw [if_neg hempty] at hg
      have hge := Option.some.inj hg
      subst hge
      exact build_meta_ut_mem mi _ app c
  · intro r hr c
    unfold render_model_source at hr
    by_cases hempty : (render_data_loop mi mi.fields
        { imports := setInsert (setInsert [] "from tortoise import fields")
            "from tortoise.models import Model" }).converted = []
    · rw [if_pos hempty] at hr
      exact Option.noConfusion hr
    · rw [if_neg hempty] at hr
      have hre := Option.some.inj hr
      subst hre
      exact render_meta_ut_mem mi app _ c
  · intro tfields c hmem hmiss
    unfold build_meta_classW
    rw [if_pos (by intro h; rw [h] at hmem; simp at hmem)]
    exact List.mem_map_of_mem (unique_together_warning mi)
      ((partition_constraints_mem_invalid mi.unique_together
        (dictKeys tfields) c).mpr ⟨hmem, hmiss⟩)

/-- Witness for C7: on `exMIC`, the constraint `("name", "missing_col")`
references the unconverted name `missing_col`, so a warning for the whole
constraint is emitted (here against the empty field dict). -/
theorem unique_together_retention_witness :
    unique_together_warning exMIC ["name", "missing_col"]
      ∈ (build_meta_classW exMIC [] "django_tortoise").2 :=
  (unique_together_retention exMIC "django_tortoise" exMap).2.2 []
    ["name", "missing_col"] (by decide) (by decide)

/-! ## C8 — file-like and specialized string kinds -/

theorem lookup_dictErase_none {α : Type} :
    ∀ (l : List (String × α)) (k k' : String),
      l.lookup k = Option.none → (dictErase l k').lookup k = Option.none := by
  intro l
  induction l with
  | nil => intro k k' h; simp [dictErase]
  | cons p t ih =>
    intro k k' h
    cases p with
    | mk k₁ v₁ =>
      simp only [List.lookup_cons] at h
      cases hkk : (k == k₁)
      · rw [hkk] at h
        by_cases h1 : k₁ = k'
        · simpa [dictErase, h1] using h
        · simp only [dictErase, if_neg h1, List.lookup_cons, hkk]
          exact ih k k' h
      · rw [hkk] at h
        simp at h

theorem common_kwargs_source_lookup_none (fi : FieldInfo) (k : String)
    (hk : ¬ k ∈ ["null", "unique", "db_index", "primary_key", "source_field",
                 "default", "# TODO"]) :
    (common_kwargs_source fi).lookup k = Option.none := by
  simp only [List.mem_cons, List.not_mem_nil, or_false, not_or] at hk
  obtain ⟨n1, n2, n3, n4, n5, n6, n7⟩ := hk
  have b1 : (k == "null") = false := beq_eq_false_iff_ne.mpr n1
  have b2 : (k == "unique") = false := beq_eq_false_iff_ne.mpr n2
  have b3 : (k == "db_index") = false := beq_eq_false_iff_ne.mpr n3
  have b4 : (k == "primary_key") = false := beq_eq_false_iff_ne.mpr n4
  have b5 : (k == "source_field") = false := beq_eq_false_iff_ne.mpr n5
  unfold common_kwargs_source
  by_cases h1 : fi.null <;> by_cases h2 : fi.unique <;>
    by_cases h3 : fi.db_index <;> by_cases h4 : fi.primary_key <;>
      by_cases h5 : fi.column ≠ "" ∧ fi.column ≠ fi.name <;>
        by_cases h6 : fi.has_default <;>
          simp [h1, h2, h3, h4, h5, h6, List.lookup, b1, b2, b3, b4, b5,
            default_kwargs_source_lookup_other _ _ n6 n7]

theorem char_like_source_kwargs_lookup (default_max : Nat) (fi : FieldInfo) :
    ((char_like_source_kwargs default_max fi).1).lookup "max_length"
      = some (toString (pyOrNat fi.max_length default_max)) := by
  unfold char_like_source_kwargs extract_todo_comment
  have hnone := common_kwargs_source_lookup_none fi "max_length" (by decide)
  split
  · rw [lookup_append]
    rw [lookup_dictErase_none _ _ _ hnone]
    rfl
  · rw [lookup_append, hnone]
    rfl

theorem live_char_like_max_length (fi : FieldInfo) (d : Nat) :
    live_max_length (some (char_like_field d fi))
      = some (Val.int (pyOrNat fi.max_length d)) := by
  show ((common_kwargs fi
      ++ [("max_length", Val.int (pyOrNat fi.max_length d))]).lookup
        "max_length")
    = some (Val.int (pyOrNat fi.max_length d))
  rw [lookup_append]
  rw [common_kwargs_lookup_none fi "max_length" (by decide)]
  rfl

/-- **C8 (counterexample).** The claim fails as stated for the IP-address
kind: a `GenericIPAddressField` carrying an explicit `max_length` of 64 is
still converted, by both converters, to a `CharField` bounded by the fixed
constant 39 — the explicit bound is ignored. -/
theorem bounded_string_degradation_counterexample :
    exIP.max_length = some 64
    ∧ live_kind (convert_field exIP) = some "CharField"
    ∧ live_max_length (convert_field exIP) = some (Val.int 39)
    ∧ render_field_source exIP = some "fields.CharField(max_length=39)"
    ∧ Val.int 39 ≠ Val.int 64 :=
  ⟨rfl, rfl, rfl, rfl, by decide⟩

/-- **C8 (amended).** Every file-like kind (`FileField`, `ImageField`,
`FilePathField`) and the specialized string kinds `SlugField`, `EmailField`
and `URLField` degrade, in both converters, to a plain `CharField` bounded
by the field's explicit `max_length` when a nonzero one is set and otherwise
by the kind-specific default (100 for the file kinds, slug 50, email 254,
URL 200); the IP-address kind degrades to a `CharField` whose bound is
always the constant 39, regardless of any explicit `max_length`. -/
theorem bounded_string_degradation (fi : FieldInfo) :
    (fi.internal_type = "FileField" ∨ fi.internal_type = "ImageField"
        ∨ fi.internal_type = "FilePathField" →
      convert_field fi = some (char_like_field 100 fi)
      ∧ live_kind (convert_field fi) = some "CharField"
      ∧ live_max_length (convert_field fi)
          = some (Val.int (pyOrNat fi.max_length 100))
      ∧ render_field_source fi = char_like_source 100 fi
      ∧ ((char_like_source_kwargs 100 fi).1).lookup "max_length"
          = some (toString (pyOrNat fi.max_length 100)))
    ∧ (fi.internal_type = "SlugField" →
      convert_field fi = some (char_like_field 50 fi)
      ∧ live_max_length (convert_field fi)
          = some (Val.int (pyOrNat fi.max_length 50))
      ∧ render_field_source fi = char_like_source 50 fi
      ∧ ((char_like_source_kwargs 50 fi).1).lookup "max_length"
          = some (toString (pyOrNat fi.max_length 50)))
    ∧ (fi.internal_type = "EmailField" →
      convert_field fi = some (char_like_field 254 fi)
      ∧ live_max_length (convert_field fi)
          = some (Val.int (pyOrNat fi.max_length 254))
      ∧ render_field_source fi = char_like_source 254 fi
      ∧ ((char_like_source_kwargs 254 fi).1).lookup "max_length"
          = some (toString (pyOrNat fi.max_length 254)))
    ∧ (fi.internal_type = "URLField" →
      convert_field fi = some (char_like_field 200 fi)
      ∧ live_max_length (convert_field fi)
          = some (Val.int (pyOrNat fi.max_length 200))
      ∧ render_field_source fi = char_like_source 200 fi
      ∧ ((char_like_source_kwargs 200 fi).1).lookup "max_length"
          = some (toString (pyOrNat fi.max_length 200)))
    ∧ (fi.internal_type = "GenericIPAddressField" →
      convert_field fi = some (ip_field fi)
      ∧ live_kind (convert_field fi) = some "CharField"
      ∧ live_max_length (convert_field fi) = some (Val.int 39)
      ∧ render_field_source fi = ip_source fi) := by
  refine ⟨?_, ?_, ?_, ?_, ?_⟩
  · rintro (h | h | h) <;>
    · have hc : convert_field fi = some (char_like_field 100 fi) := by
        unfold convert_field
        rw [h]
        rfl
      refine ⟨hc, ?_, ?_, ?_, char_like_source_kwargs_lookup 100 fi⟩
      · rw [hc]; rfl
      · rw [hc]; exact live_char_like_max_length fi 100
      · unfold render_field_source
        rw [h]
        rfl
  · intro h
    have hc : convert_field fi = some (char_like_field 50 fi) := by
      unfold convert_field
      rw [h]
      rfl
    refine ⟨hc, ?_, ?_, char_like_source_kwargs_lookup 50 fi⟩
    · rw [hc]; exact live_char_like_max_length fi 50
    · unfold render_field_source
      rw [h]
      rfl
  · intro h
    have hc : convert_field fi = some (char_like_field 254 fi) := by
      unfold convert_field
      rw [h]
      rfl
    refine ⟨hc, ?_, ?_, char_like_source_kwargs_lookup 254 fi⟩
    · rw [hc]; exact live_char_like_max_length fi 254
    · unfold render_field_source
      rw [h]
      rfl
  · intro h
    have hc : convert_field fi = some (char_like_field 200 fi) := by
      unfold convert_field
      rw [h]
      rfl
    refine ⟨hc, ?_, ?_, char_like_source_kwargs_lookup 200 fi⟩
    · rw [hc]; exact live_char_like_max_length fi 200
    · unfold render_field_source
      rw [h]
      rfl
  · intro h
    have hc : convert_field fi = some (ip_field fi) := by
      unfold convert_field
      rw [h]
      rfl
    refine ⟨hc, by rw [hc]; rfl, ?_, ?_⟩
    · rw [hc]
      show ((common_kwargs fi ++ [("max_length", Val.int 39)]).lookup
          "max_length") = some (Val.int 39)
      rw [lookup_append]
      rw [common_kwargs_lookup_none fi "max_length" (by decide)]
      rfl
    · unfold render_field_source
      rw [h]
      rfl

/-- Witness for C8 (amended): a `SlugField` with no explicit bound gets the
default bound 50 in both converters. -/
theorem bounded_string_degradation_witness :
    live_max_length (convert_field exSlug) = some (Val.int 50)
    ∧ ((char_like_source_kwargs 50 exSlug).1).lookup "max_length" = some "50" :=
  ⟨(bounded_string_degradation exSlug).2.1 rfl |>.2.1,
   (bounded_string_degradation exSlug).2.1 rfl |>.2.2.2⟩

/-! ## C3 — Pass-2 failure handling -/

theorem generate_none_of_no_data (mi : ModelInfo)
    (h : (build_data_fields mi.fields).1 = []) :
    ∀ (app : String) (map : List (Nat × String)),
      generate_tortoise_model_full mi app map = Option.none := by
  intro app map
  unfold generate_tortoise_model_full
  rw [if_pos h]

theorem pass2_append :
    ∀ (l₁ l₂ : List ModelInfo) (m : List (Nat × String)),
      pass2 (l₁ ++ l₂) m
        = ((pass2 l₁ m).1 ++ (pass2 l₂ (pass2 l₁ m).2).1,
           (pass2 l₂ (pass2 l₁ m).2).2) := by
  intro l₁
  induction l₁ with
  | nil => intro l₂ m; rfl
  | cons mi rest ih =>
    intro l₂ m
    show pass2 (mi :: (rest ++ l₂)) m = _
    rw [pass2]
    cases hg : generate_tortoise_model_full mi "django_tortoise" m with
    | none =>
      rw [ih l₂ (eraseKeyNat m mi.key)]
      rw [show pass2 (mi :: rest) m = pass2 rest (eraseKeyNat m mi.key) from by
        rw [pass2, hg]]
    | some gm =>
      rw [ih l₂ m]
      rw [show pass2 (mi :: rest) m
            = ((mi.key, gm) :: (pass2 rest m).1, (pass2 rest m).2) from by
        rw [pass2, hg]]
      simp

theorem lookup_eraseKeyNat_self (m : List (Nat × String)) (k : Nat) :
    (eraseKeyNat m k).lookup k = Option.none := by
  induction m with
  | nil => rfl
  | cons p t ih =>
    cases p with
    | mk k₁ v₁ =>
      by_cases h : k₁ = k
      · simpa [eraseKeyNat, h] using ih
      · have hb : (k == k₁) = false :=
          beq_eq_false_iff_ne.mpr (fun hk => h hk.symm)
        simp only [eraseKeyNat, List.filter_cons]
        rw [if_pos (by simpa using h)]
        simp only [List.lookup_cons, hb]
        simpa [eraseKeyNat] using ih

theorem lookup_eraseKeyNat_none (m : List (Nat × String)) (k k' : Nat)
    (h : m.lookup k = Option.none) :
    (eraseKeyNat m k').lookup k = Option.none := by
  induction m with
  | nil => rfl
  | cons p t ih =>
    cases p with
    | mk k₁ v₁ =>
      simp only [List.lookup_cons] at h
      cases hb : (k == k₁)
      · rw [hb] at h
        by_cases h1 : k₁ = k'
        · simpa [eraseKeyNat, h1] using ih h
        · simp only [eraseKeyNat, List.filter_cons]
          rw [if_pos (by simpa using h1)]
          simp only [List.lookup_cons, hb]
          simpa [eraseKeyNat] using ih h
      · rw [hb] at h
        simp at h

theorem pass2_preserves_lookup_none :
    ∀ (l : List ModelInfo) (m : List (Nat × String)) (k : Nat),
      m.lookup k = Option.none → ((pass2 l m).2).lookup k = Option.none := by
  intro l
  induction l with
  | nil => intro m k h; exact h
  | cons mi rest ih =>
    intro m k h
    rw [pass2]
    cases hg : generate_tortoise_model_full mi "django_tortoise" m with
    | none => exact ih _ k (lookup_eraseKeyNat_none m k mi.key h)
    | some gm => exact ih m k h

/-- **C3 (counterexample).** The claim fails as stated: with Pass-2 order
`[exMIC, exMID]`, model 1 (`exMIC`) is materialized first and receives the
relation field `ref` pointing at model 2 (`exMID`); model 2 then fails
materialization (it has no convertible data field) and is popped from the
class-name map — yet model 1's already-materialized field set still contains
`ref`.  A relation field pointing at the failed model is therefore *not*
dropped when its owner was materialized before the failure. -/
theorem failed_model_degradation_counterexample :
    ((pass2 [exMIC, exMID] exMap).1.map
        (fun p => (p.1, dictKeys p.2.fields)))
      = [(1, ["id", "name", "active", "ref"])]
    ∧ (pass2 [exMIC, exMID] exMap).2 = [(1, "ModelCTortoise")]
    ∧ exFK ∈ exMIC.fields
    ∧ exFK.is_relation = true
    ∧ exFK.related_model = some exMID.key
    ∧ exFK.name = "ref"
    ∧ (build_data_fields exMID.fields).1 = [] :=
  ⟨rfl, rfl, by decide, rfl, rfl, rfl, rfl⟩

/-- **C3 (amended).** During Pass 2, when materialization of a model `d`
fails (it has no convertible data field, the only failure mode the loop
absorbs), its entry is removed from the class-name map and generation
continues: the run decomposes into the models before `d`, processed as if
`d` were absent, and the models after `d`, processed with `d`'s entry erased
from the map; `d` is absent from the final map; and any relation field
pointing at `d` converts to `None` under any map lacking `d`'s entry — so
models materialized *after* `d` drop their `d`-pointing relation fields,
while models materialized before the failure keep the name reference they
already received. -/
theorem failed_model_degradation (pre post : List ModelInfo) (d : ModelInfo)
    (m m' : List (Nat × String)) (fi : FieldInfo) (app : String)
    (hfail : (build_data_fields d.fields).1 = [])
    (hfi : fi.related_model = some d.key)
    (hm' : m'.lookup d.key = Option.none) :
    pass2 (pre ++ d :: post) m
      = ((pass2 pre m).1
           ++ (pass2 post (eraseKeyNat (pass2 pre m).2 d.key)).1,
         (pass2 post (eraseKeyNat (pass2 pre m).2 d.key)).2)
    ∧ ((pass2 (pre ++ d :: post) m).2).lookup d.key = Option.none
    ∧ convert_relation_field_by_name fi app m' = Option.none := by
  have hstep : pass2 (d :: post) (pass2 pre m).2
      = pass2 post (eraseKeyNat (pass2 pre m).2 d.key) := by
    rw [pass2, generate_none_of_no_data d hfail]
  have hdec : pass2 (pre ++ d :: post) m
      = ((pass2 pre m).1
           ++ (pass2 post (eraseKeyNat (pass2 pre m).2 d.key)).1,
         (pass2 post (eraseKeyNat (pass2 pre m).2 d.key)).2) := by
    rw [pass2_append, hstep]
  refine ⟨hdec, ?_, ?_⟩
  · rw [hdec]
    exact pass2_preserves_lookup_none post _ d.key
      (lookup_eraseKeyNat_self (pass2 pre m).2 d.key)
  · unfold convert_relation_field_by_name convert_relation_field_by_nameW
    rw [hfi]
    simp [hm']

/-- Witness for C3 (amended): the decomposition at the concrete run
`[exMIC, exMID]` (model 2 fails), plus the dropped conversion of `exFK`
under the post-failure map. -/
theorem failed_model_degradation_witness :
    pass2 ([exMIC] ++ exMID :: []) exMap
      = ((pass2 [exMIC] exMap).1
           ++ (pass2 [] (eraseKeyNat (pass2 [exMIC] exMap).2 exMID.key)).1,
         (pass2 [] (eraseKeyNat (pass2 [exMIC] exMap).2 exMID.key)).2)
    ∧ ((pass2 ([exMIC] ++ exMID :: []) exMap).2).lookup exMID.key
        = Option.none
    ∧ convert_relation_field_by_name exFK "django_tortoise"
        [(1, "ModelCTortoise")] = Option.none :=
  failed_model_degradation [exMIC] [] exMID exMap [(1, "ModelCTortoise")]
    exFK "django_tortoise" rfl rfl rfl

end DjangoTortoise
